import Mathlib

/-!
Verification development for the fold-webapp job-orchestration core.

This file gives a shallow embedding, in Lean, of the orchestration layer of
the web application: the job lifecycle state machine, the SLURM scheduler
client (live status mapping and the simulated FAKE_SLURM mode), admission
control (maintenance mode, runner enablement, per-user quota), the Boltz
batch-script builder, workdir preparation, the retention sweep, and the
output-download path handling.  Each definition is a direct translation of
the corresponding Python function; theorems at the end establish the
behavioural properties of those translations.

Modelling conventions:
* wall-clock timestamps are rationals (seconds);
* the filesystem is an association list from component paths
  (`List String`) to file contents; directories are implicit;
* Python dict payloads produced by the Boltz-2 model type are given their
  typed shape (the set of keys the code reads);
* database rows are plain Lean structures, and queryset reads are explicit
  function arguments.
-/

namespace FoldWebapp

/-- Lifecycle states of a Job row (jobs/models.py, Job.Status). -/
inductive JobStatus
  | PENDING
  | RUNNING
  | COMPLETED
  | FAILED
deriving DecidableEq, Repr

/-- Status strings returned by slurm.check_status (slurm.py). -/
inductive SlurmStatus
  | PENDING
  | RUNNING
  | COMPLETED
  | FAILED
  | UNKNOWN
deriving DecidableEq, Repr

/-- Per-runner Boltz-2 parameter dictionary: the keys read by
BoltzRunner.build_script and written by Boltz2ModelType.normalize_inputs.
`none` / `false` model absent or falsy dict entries. -/
structure BoltzParams where
  use_msa_server : Bool := false
  use_potentials : Bool := false
  output_format : Option String := none
  recycling_steps : Option Nat := none
  sampling_steps : Option Nat := none
  diffusion_samples : Option Nat := none
  input_filename : Option String := none
deriving DecidableEq, Repr

/-- A Job ledger row (jobs/models.py).  `params` is the JSON parameter map,
modelled at the typed shape used by the Boltz runner; `input_payload_files`
is the sanitized filename list stored in `input_payload`. -/
structure Job where
  id : String
  owner : String
  name : String := ""
  runner : String := ""
  model_key : String := ""
  status : JobStatus := JobStatus.PENDING
  sequences : String := ""
  params : BoltzParams := {}
  input_payload_files : List String := []
  slurm_job_id : String := ""
  error_message : String := ""
  created_at : ℚ := 0
  submitted_at : Option ℚ := none
  completed_at : Option ℚ := none
  hidden_from_owner : Bool := false
deriving DecidableEq, Repr

/-- Terminal statuses (COMPLETED or FAILED). -/
def JobStatus.isTerminal : JobStatus → Bool
  | JobStatus.COMPLETED => true
  | JobStatus.FAILED => true
  | _ => false

/-- Statuses the poller tracks (PENDING or RUNNING). -/
def JobStatus.isActive : JobStatus → Bool
  | JobStatus.PENDING => true
  | JobStatus.RUNNING => true
  | _ => false

/- ------------------------------------------------------------------
Simulated scheduler (slurm.py, check_status, FAKE_SLURM branch).
------------------------------------------------------------------ -/

/-- State of the fake-scheduler marker files inside a job workdir:
whether `.fake_slurm_canceled` exists, and the content of
`.fake_slurm_started_at` (`none` = file absent, `some none` = file present
but unparsable, `some (some t)` = parsed start timestamp `t`). -/
structure FakeWorkdir where
  canceledExists : Bool
  startedAt : Option (Option ℚ)
deriving DecidableEq, Repr

/-- slurm.check_status, FAKE_SLURM branch: cancellation marker wins, then
a missing or unparsable start timestamp gives UNKNOWN, then status is a
pure function of the elapsed time (`now - started_at`): PENDING below 5
seconds, RUNNING below 15 seconds, COMPLETED afterwards. -/
def checkStatusFake (w : FakeWorkdir) (now : ℚ) : SlurmStatus :=
  if w.canceledExists then SlurmStatus.FAILED
  else
    match w.startedAt with
    | none => SlurmStatus.UNKNOWN
    | some none => SlurmStatus.UNKNOWN
    | some (some startedAt) =>
      let elapsed := now - startedAt
      if elapsed < 5 then SlurmStatus.PENDING
      else if elapsed < 15 then SlurmStatus.RUNNING
      else SlurmStatus.COMPLETED

/- ------------------------------------------------------------------
Live scheduler state mapping (slurm.py, check_status, squeue/sacct path).
------------------------------------------------------------------ -/

/-- Mapping of a non-empty squeue state token for an active job. -/
def mapSqueueState (state : String) : SlurmStatus :=
  if state = "PENDING" ∨ state = "CONFIGURING" then SlurmStatus.PENDING
  else if state = "RUNNING" ∨ state = "COMPLETING" ∨ state = "SUSPENDED" then SlurmStatus.RUNNING
  else SlurmStatus.RUNNING

/-- Mapping of a sacct state token (already split at `+`). -/
def mapSacctState (raw : String) : SlurmStatus :=
  if raw = "COMPLETED" then SlurmStatus.COMPLETED
  else if raw = "PENDING" ∨ raw = "CONFIGURING" then SlurmStatus.PENDING
  else if raw = "RUNNING" ∨ raw = "COMPLETING" then SlurmStatus.RUNNING
  else if raw = "CANCELLED" ∨ raw = "FAILED" ∨ raw = "TIMEOUT" ∨ raw = "NODE_FAIL"
      ∨ raw = "OUT_OF_MEMORY" ∨ raw = "PREEMPTED" then SlurmStatus.FAILED
  else SlurmStatus.FAILED

/- ------------------------------------------------------------------
Lifecycle poller (jobs/management/commands/poll_jobs.py).
------------------------------------------------------------------ -/

/-- STALE_JOB_TIMEOUT = timedelta(hours=1), in seconds. -/
def staleJobTimeout : ℚ := 3600

/-- The error message synthesized for a stale job. -/
def staleJobMessage : String :=
  "Job not found in SLURM. It may have failed before " ++
  "being scheduled, or SLURM lost track of it."

/-- Membership in the poller queryset: status PENDING or RUNNING and a
non-empty slurm_job_id. -/
def inPollerQueryset (j : Job) : Bool :=
  j.status.isActive && j.slurm_job_id ≠ ""

/-- Conversion of a trackable scheduler answer to a job status
(UNKNOWN is handled separately by the poller). -/
def slurmToJobStatus : SlurmStatus → Option JobStatus
  | SlurmStatus.PENDING => some JobStatus.PENDING
  | SlurmStatus.RUNNING => some JobStatus.RUNNING
  | SlurmStatus.COMPLETED => some JobStatus.COMPLETED
  | SlurmStatus.FAILED => some JobStatus.FAILED
  | SlurmStatus.UNKNOWN => none

/-- One poller iteration on a single job (Command.handle body):
jobs outside the queryset are untouched; an UNKNOWN answer fails the job
only when more than STALE_JOB_TIMEOUT has elapsed since `submitted_at`;
otherwise the status is overwritten when it changed, stamping
`completed_at` on entry to a terminal state. -/
def pollerStep (j : Job) (sched : SlurmStatus) (now : ℚ) : Job :=
  if ¬ inPollerQueryset j then j
  else
    match slurmToJobStatus sched with
    | none =>
      match j.submitted_at with
      | some s =>
        if now - s > staleJobTimeout then
          { j with status := JobStatus.FAILED,
                   error_message := staleJobMessage,
                   completed_at := some now }
        else j
      | none => j
    | some newStatus =>
      if newStatus = j.status then j
      else
        { j with status := newStatus,
                 completed_at :=
                   if newStatus.isTerminal then some now else j.completed_at }

/- ------------------------------------------------------------------
Cancellation and hiding operations
(console/services/jobs.py, jobs/views.py, api/views.py).
------------------------------------------------------------------ -/

/-- console.services.jobs.cancel_job: admin cancel.  Returns the updated
row and whether the job was cancellable. -/
def cancelJobAdmin (j : Job) (actor : String) (now : ℚ) : Job × Bool :=
  if ¬ j.status.isActive then (j, false)
  else if j.slurm_job_id = "" then (j, false)
  else
    ({ j with status := JobStatus.FAILED,
              error_message := "Cancelled by admin (" ++ actor ++ ")",
              completed_at := some now }, true)

/-- console.services.jobs.hide_job_from_owner: admin soft-delete, which
first cancels a still-active submitted job. -/
def hideJobFromOwner (j : Job) (actor : String) (now : ℚ) : Job × Bool :=
  if j.hidden_from_owner then (j, false)
  else
    let j1 :=
      if j.status.isActive && j.slurm_job_id ≠ "" then
        { j with status := JobStatus.FAILED,
                 error_message := "Cancelled and hidden by admin (" ++ actor ++ ")",
                 completed_at := some now }
      else j
    ({ j1 with hidden_from_owner := true }, true)

/-- jobs.views.job_cancel: user-initiated cancel through the web UI. -/
def userCancelJob (j : Job) (now : ℚ) : Job :=
  if j.status.isActive && j.slurm_job_id ≠ "" then
    { j with status := JobStatus.FAILED,
             error_message := "Cancelled by user",
             completed_at := some now }
  else j

/-- api.views.job_cancel: cancel through the REST API.  Returns the
updated row and whether the request was accepted (`false` = HTTP 400). -/
def apiCancelJob (j : Job) (now : ℚ) : Job × Bool :=
  if ¬ j.status.isActive then (j, false)
  else
    ({ j with status := JobStatus.FAILED,
              error_message := "Cancelled by user via API",
              completed_at := some now }, true)

/- ------------------------------------------------------------------
Admission control
(console/models.py, console/services/quota.py, jobs/services.py).
------------------------------------------------------------------ -/

/-- A UserQuota row (console/models.py), restricted to the fields the
orchestration core reads. -/
structure UserQuota where
  max_concurrent_jobs : Nat := 1
  max_queued_jobs : Nat := 5
  jobs_per_day : Nat := 10
  retention_days : Nat := 30
  is_disabled : Bool := false
  disabled_reason : String := ""
deriving DecidableEq, Repr

/-- A RunnerConfig row (console/models.py), restricted to the fields the
orchestration core reads.  Field defaults are the model-field defaults,
which get_or_create applies when the row is lazily created. -/
structure RunnerConfig where
  enabled : Bool := true
  disabled_reason : String := ""
  partition : String := ""
  gpus : Nat := 0
  cpus : Nat := 1
  mem_gb : Nat := 8
  time_limit : String := ""
  image_uri : String := ""
  extra_env : List (String × String) := []
  extra_mounts : List (String × String) := []
deriving DecidableEq, Repr

/-- Process-level settings read by the core (bioportal/settings.py).
`job_base_dir` and `job_base_dir_host` are kept as opaque directory names
(one path component each). -/
structure Settings where
  default_max_concurrent_jobs : Nat := 1
  default_max_queued_jobs : Nat := 5
  default_jobs_per_day : Nat := 10
  default_retention_days : Nat := 30
  job_base_dir : String := "job_data"
  job_base_dir_host : String := "job_data"
  boltz_image : String := "boltz2:latest"
  boltz_cache_dir : String := "job_data/boltz_cache"
  fake_slurm : Bool := false
deriving DecidableEq, Repr

/-- Ambient state read by the submission pipeline for one owner:
site settings row, RunnerConfig table (lookup by runner key), whether the
owner is staff, the owner UserQuota row if present, and the three
queryset counts the quota check performs. -/
structure SubmissionEnv where
  st : Settings := {}
  maintenance_mode : Bool := false
  maintenance_message : String := "System is under maintenance. Please try again later."
  runnerConfigs : String → Option RunnerConfig := fun _ => none
  isStaff : Bool := false
  quotaRecord : Option UserQuota := none
  running_count : Nat := 0
  pending_count : Nat := 0
  jobs_today : Nat := 0

/-- jobs.services.check_maintenance_mode, as an optional error message. -/
def checkMaintenanceMode (env : SubmissionEnv) : Option String :=
  if env.maintenance_mode then some env.maintenance_message else none

/-- console.models.RunnerConfig.is_runner_enabled: a missing row means
enabled by default. -/
def isRunnerEnabled (env : SubmissionEnv) (key : String) : Bool :=
  match env.runnerConfigs key with
  | some c => c.enabled
  | none => true

/-- console.models.RunnerConfig.get_config: get-or-create with field
defaults. -/
def getRunnerConfig (env : SubmissionEnv) (key : String) : RunnerConfig :=
  (env.runnerConfigs key).getD {}

/-- jobs.services.check_runner_enabled, as an optional error message. -/
def checkRunnerEnabled (env : SubmissionEnv) (key : String) : Option String :=
  if ¬ isRunnerEnabled env key then
    let config := getRunnerConfig env key
    let reason :=
      if config.disabled_reason = "" then "This runner is temporarily unavailable."
      else config.disabled_reason
    some ("Runner is disabled: " ++ reason)
  else none

/-- console.services.quota.get_user_quota: get-or-create using the
settings defaults.  Returns the effective row and the row stored
afterwards. -/
def getUserQuota (st : Settings) (record : Option UserQuota) :
    UserQuota × Option UserQuota :=
  match record with
  | some q => (q, some q)
  | none =>
    let q : UserQuota :=
      { max_concurrent_jobs := st.default_max_concurrent_jobs,
        max_queued_jobs := st.default_max_queued_jobs,
        jobs_per_day := st.default_jobs_per_day,
        retention_days := st.default_retention_days }
    (q, some q)

/-- The disabled-account message of check_quota. -/
def disabledAccountMessage (q : UserQuota) : String :=
  "Your account has been disabled: " ++
    (if q.disabled_reason = "" then "Account is disabled" else q.disabled_reason)

/-- The concurrent-limit message of check_quota. -/
def concurrentLimitMessage (q : UserQuota) : String :=
  "You have reached the maximum number of concurrent jobs (" ++
    toString q.max_concurrent_jobs ++ "). Please wait for a job to complete."

/-- The queued-limit message of check_quota. -/
def queuedLimitMessage (q : UserQuota) : String :=
  "You have reached the maximum number of queued jobs (" ++
    toString q.max_queued_jobs ++ "). Please wait for some jobs to start running."

/-- The daily-limit message of check_quota. -/
def dailyLimitMessage (q : UserQuota) : String :=
  "You have reached the maximum number of jobs per day (" ++
    toString q.jobs_per_day ++ "). Please try again tomorrow."

/-- console.services.quota.check_quota: staff users pass before the row is
even read; otherwise the row is lazily created and the disabled flag,
concurrent count, queued count and daily count are checked in that order.
Returns the optional error message and the quota row stored afterwards. -/
def checkQuota (env : SubmissionEnv) : Option String × Option UserQuota :=
  if env.isStaff then (none, env.quotaRecord)
  else
    let q := (getUserQuota env.st env.quotaRecord).1
    let stored := (getUserQuota env.st env.quotaRecord).2
    if q.is_disabled then (some (disabledAccountMessage q), stored)
    else if env.running_count ≥ q.max_concurrent_jobs then
      (some (concurrentLimitMessage q), stored)
    else if env.pending_count ≥ q.max_queued_jobs then
      (some (queuedLimitMessage q), stored)
    else if env.jobs_today ≥ q.jobs_per_day then
      (some (dailyLimitMessage q), stored)
    else (none, stored)

/-- The admission gate of jobs.services.create_and_submit_job: maintenance
mode, then runner enablement, then quota; the first failure is reported. -/
def admissionCheck (env : SubmissionEnv) (runnerKey : String) : Option String :=
  match checkMaintenanceMode env with
  | some e => some e
  | none =>
    match checkRunnerEnabled env runnerKey with
    | some e => some e
    | none => (checkQuota env).1

/-- The effective quota row a non-staff submission is checked against. -/
def effectiveQuota (env : SubmissionEnv) : UserQuota :=
  (getUserQuota env.st env.quotaRecord).1

/-- Specification-side view of admission control: the six checks in the
order the specification fixes (maintenance, runner enabled, account
disabled, concurrent limit, queued limit, daily limit), each as a failure
condition paired with its message. -/
def orderedAdmissionChecks (env : SubmissionEnv) (key : String) :
    List (Bool × String) :=
  let q := effectiveQuota env
  [ (env.maintenance_mode, env.maintenance_message),
    (¬ isRunnerEnabled env key,
      "Runner is disabled: " ++
        (if (getRunnerConfig env key).disabled_reason = "" then
          "This runner is temporarily unavailable."
        else (getRunnerConfig env key).disabled_reason)),
    (¬ env.isStaff && q.is_disabled, disabledAccountMessage q),
    (¬ env.isStaff && env.running_count ≥ q.max_concurrent_jobs,
      concurrentLimitMessage q),
    (¬ env.isStaff && env.pending_count ≥ q.max_queued_jobs,
      queuedLimitMessage q),
    (¬ env.isStaff && env.jobs_today ≥ q.jobs_per_day,
      dailyLimitMessage q) ]

/-- The message of the first failing check, if any. -/
def firstFailure (checks : List (Bool × String)) : Option String :=
  (checks.find? (fun c => c.1)).map (fun c => c.2)

/- ------------------------------------------------------------------
Filesystem model.
------------------------------------------------------------------ -/

/-- A filesystem: an association list from absolute component paths to
file contents.  Directories are implicit (a directory exists when some
file lives under it); uploaded binary contents are modelled as strings. -/
abbrev FS : Type := List (List String × String)

/-- Write (create or overwrite) a file. -/
def fsWrite (fs : FS) (p : List String) (c : String) : FS :=
  (p, c) :: List.filter (fun e => ¬ e.1 = p) fs

/-- Read a file. -/
def fsRead (fs : FS) (p : List String) : Option String :=
  (List.find? (fun e => e.1 = p) fs).map (fun e => e.2)

/-- Recursively delete every file under directory `d` (shutil.rmtree). -/
def fsRemoveTree (fs : FS) (d : List String) : FS :=
  List.filter (fun e => ¬ d <+: e.1) fs

/-- A directory exists when some file lives at or under it. -/
def fsDirNonempty (fs : FS) (d : List String) : Bool :=
  List.any fs (fun e => d <+: e.1)

/-- The component path of a job workdir: `{JOB_BASE_DIR}/{job.id}`
(jobs/models.py, Job.workdir). -/
def workdirPath (st : Settings) (j : Job) : List String :=
  [st.job_base_dir, j.id]

/-- Modelled from the spec: `Job.host_workdir` is referenced by the
runners and the submission service but its definition is not part of the
sources at hand; per the specification a job workdir is deterministically
derived as `{base}/{id}`, and the settings provide `JOB_BASE_DIR_HOST` as
the host-visible base directory, so the host workdir is rendered as the
flat path `{JOB_BASE_DIR_HOST}/{job.id}`. -/
def hostWorkdirStr (st : Settings) (j : Job) : String :=
  st.job_base_dir_host ++ "/" ++ j.id

/- ------------------------------------------------------------------
Python str.strip() and the Boltz-2 input pipeline
(model_types/boltz2.py, model_types/base.py, jobs/services.py).
------------------------------------------------------------------ -/

/-- Python whitespace characters removed by str.strip(). -/
def isPySpace (c : Char) : Bool :=
  c = ' ' || c = '\t' || c = '\n' || c = '\r' || c = '\x0b' || c = '\x0c'

/-- Python str.strip() on a character list. -/
def pyStripList (l : List Char) : List Char :=
  (((l.dropWhile isPySpace).reverse).dropWhile isPySpace).reverse

/-- Python str.strip(). -/
def pyStrip (s : String) : String :=
  String.mk (pyStripList s.data)

/-- A canonical input payload (model_types/base.py, InputPayload):
FASTA text, model parameters, and uploaded files (filename to content). -/
structure InputPayload where
  sequences : String := ""
  params : BoltzParams := {}
  files : List (String × String) := []
deriving DecidableEq, Repr

/-- Cleaned form data of the Boltz-2 submit form (jobs/forms.py,
Boltz2SubmitForm), restricted to the fields normalize_inputs reads. -/
structure Boltz2Cleaned where
  sequences : String := ""
  use_msa_server : Bool := false
  use_potentials : Bool := false
  output_format : Option String := none
  recycling_steps : Option Nat := none
  sampling_steps : Option Nat := none
  diffusion_samples : Option Nat := none
deriving DecidableEq, Repr

/-- Drop a falsy optional value (Python `v not in (None, "", False)` for
string-valued entries). -/
def truthyStr (v : Option String) : Option String :=
  match v with
  | some s => if s = "" then none else some s
  | none => none

/-- Drop a falsy optional value for integer-valued entries (0 is falsy). -/
def truthyNat (v : Option Nat) : Option Nat :=
  match v with
  | some n => if n = 0 then none else some n
  | none => none

/-- Boltz2ModelType.normalize_inputs: strip the sequences, build the
params dict and drop falsy values; no files. -/
def boltz2NormalizeInputs (cleaned : Boltz2Cleaned) : InputPayload :=
  { sequences := pyStrip cleaned.sequences,
    params :=
      { use_msa_server := cleaned.use_msa_server,
        use_potentials := cleaned.use_potentials,
        output_format := truthyStr cleaned.output_format,
        recycling_steps := truthyNat cleaned.recycling_steps,
        sampling_steps := truthyNat cleaned.sampling_steps,
        diffusion_samples := truthyNat cleaned.diffusion_samples },
    files := [] }

/-- BaseModelType.prepare_workdir: create input/ and output/, write
`input/sequences.fasta` when sequences is non-empty, and write every
uploaded file verbatim under input/. -/
def prepareWorkdir (st : Settings) (j : Job) (payload : InputPayload) (fs : FS) : FS :=
  let wd := workdirPath st j
  let fs1 :=
    if payload.sequences ≠ "" then
      fsWrite fs (wd ++ ["input", "sequences.fasta"]) payload.sequences
    else fs
  payload.files.foldl (fun acc f => fsWrite acc (wd ++ ["input", f.1]) f.2) fs1

/- ------------------------------------------------------------------
Boltz batch-script builder
(console/models.py get_slurm_directives, runners/boltz.py build_script).
------------------------------------------------------------------ -/

/-- Python str.join (used for "\n".join, " ".join and the docker-command
continuation join). -/
def strJoinSep (sep : String) : List String → String
  | [] => ""
  | [x] => x
  | x :: xs => x ++ sep ++ strJoinSep sep xs

/-- The list of #SBATCH directive lines of RunnerConfig.get_slurm_directives:
one line per configured resource, skipping empty partition, zero GPUs,
cpus at most 1, zero memory, and empty time limit. -/
def slurmDirectiveLines (c : RunnerConfig) : List String :=
  (if c.partition ≠ "" then ["#SBATCH --partition=" ++ c.partition] else []) ++
  (if c.gpus ≠ 0 then ["#SBATCH --gres=gpu:" ++ toString c.gpus] else []) ++
  (if c.cpus > 1 then ["#SBATCH --cpus-per-task=" ++ toString c.cpus] else []) ++
  (if c.mem_gb ≠ 0 then ["#SBATCH --mem=" ++ toString c.mem_gb ++ "G"] else []) ++
  (if c.time_limit ≠ "" then ["#SBATCH --time=" ++ c.time_limit] else [])

/-- RunnerConfig.get_slurm_directives. -/
def getSlurmDirectives (c : RunnerConfig) : String :=
  strJoinSep "\n" (slurmDirectiveLines c)

/-- The Boltz command-line flags derived from the job params
(runners/boltz.py); each `params.get` test is Python truthiness. -/
def boltzFlags (p : BoltzParams) : List String :=
  (if p.use_msa_server then ["--use_msa_server"] else []) ++
  (if p.use_potentials then ["--use_potentials"] else []) ++
  (match truthyStr p.output_format with
   | some v => ["--output_format", v]
   | none => []) ++
  (match truthyNat p.recycling_steps with
   | some v => ["--recycling_steps", toString v]
   | none => []) ++
  (match truthyNat p.sampling_steps with
   | some v => ["--sampling_steps", toString v]
   | none => []) ++
  (match truthyNat p.diffusion_samples with
   | some v => ["--diffusion_samples", toString v]
   | none => [])

/-- BoltzRunner.build_script: the docker invocation lines. -/
def boltzDockerArgs (st : Settings) (j : Job) (config : Option RunnerConfig) : List String :=
  let workdir := hostWorkdirStr st j
  let cacheDir := st.boltz_cache_dir
  let image :=
    match config with
    | some c => if c.image_uri ≠ "" then c.image_uri else st.boltz_image
    | none => st.boltz_image
  let inputFilename := (truthyStr (j.params.input_filename)).getD "sequences.fasta"
  let flagStr := strJoinSep " " (boltzFlags j.params)
  [ "docker run --rm --gpus all",
    "-e BOLTZ_CACHE=/cache",
    "-e BOLTZ_MSA_USERNAME",
    "-e BOLTZ_MSA_PASSWORD",
    "-v " ++ workdir ++ ":/work",
    "-v " ++ cacheDir ++ ":/cache" ] ++
  (match config with
   | some c =>
     c.extra_env.map (fun kv => "-e " ++ kv.1 ++ "=" ++ kv.2) ++
     c.extra_mounts.map (fun m => "-v " ++ m.1 ++ ":" ++ m.2)
   | none => []) ++
  [ image ++ " predict /work/input/" ++ inputFilename ++
    " --out_dir /work/output --cache /cache " ++ flagStr ]

/-- Concatenation of the alternating literal/interpolated pieces of an
f-string. -/
def strConcat : List String → String
  | [] => ""
  | x :: xs => x ++ strConcat xs

/-- BoltzRunner.build_script: the full sbatch script text, rendered as
the f-string template with its interpolated holes. -/
def boltzBuildScript (st : Settings) (j : Job) (config : Option RunnerConfig) : String :=
  let workdir := hostWorkdirStr st j
  let outdir := workdir ++ "/output"
  let cacheDir := st.boltz_cache_dir
  let slurmDirectives :=
    match config with
    | some c => getSlurmDirectives c
    | none => ""
  let dockerCmd := strJoinSep " \\\n  " (boltzDockerArgs st j config)
  strConcat
    [ "#!/bin/bash\n",
      "#SBATCH --job-name=boltz-", j.id, "\n",
      "#SBATCH --output=", outdir, "/slurm-%j.out\n",
      "#SBATCH --error=", outdir, "/slurm-%j.err\n",
      slurmDirectives, "\n",
      "\nset -euo pipefail\n\nmkdir -p ", outdir, " ", cacheDir, "\n\n",
      dockerCmd, "\n\n",
      "# Ensure output is readable by the webapp\n",
      "chmod -R a+rX ", outdir, " 2>/dev/null || true\n" ]

/- ------------------------------------------------------------------
Scheduler submission (slurm.py, submit).
------------------------------------------------------------------ -/

/-- Parse sbatch stdout with the pattern `Submitted batch job (\d+)`:
scan for the first literal marker occurrence followed by at least one
digit, and capture the maximal digit run. -/
def parseSbatchStdout (chars : List Char) : Option String :=
  match chars with
  | [] => none
  | _ :: rest =>
    let marker := "Submitted batch job ".data
    if marker <+: chars then
      let digits := (chars.drop marker.length).takeWhile Char.isDigit
      if digits ≠ [] then some (String.mk digits) else parseSbatchStdout rest
    else parseSbatchStdout rest
termination_by chars.length
decreasing_by simp_all

/-- slurm.submit: in FAKE_SLURM mode, record the start-timestamp marker
and return `FAKE-{job_uuid}`; in live mode, write job.sbatch and parse the
job id from the sbatch stdout (`none` stdout models a failed sbatch
invocation), raising SlurmError when parsing fails. -/
def slurmSubmit (st : Settings) (fs : FS) (script : String) (jobId : String)
    (now : ℚ) (sbatchStdout : Option String) : Except String (String × FS) :=
  let wd : List String := [st.job_base_dir, jobId]
  if st.fake_slurm then
    Except.ok ("FAKE-" ++ jobId,
      fsWrite fs (wd ++ [".fake_slurm_started_at"]) (toString now))
  else
    let fs1 := fsWrite fs (wd ++ ["job.sbatch"]) script
    match sbatchStdout with
    | none => Except.error "sbatch failed"
    | some out =>
      match parseSbatchStdout out.data with
      | some jid => Except.ok (jid, fs1)
      | none => Except.error ("Could not parse sbatch output: " ++ out)

/- ------------------------------------------------------------------
Job creation and submission (jobs/services.py, create_and_submit_job).
------------------------------------------------------------------ -/

/-- MAX_SEQUENCE_CHARS. -/
def maxSequenceChars : Nat := 200000

/-- Result of create_and_submit_job: a ValidationError raised before the
row exists, a failed submission (the row is saved as FAILED and the error
re-raised), or success. -/
inductive SubmitResult
  | rejected (msg : String)
  | failedJob (job : Job) (fs : FS) (msg : String)
  | ok (job : Job) (fs : FS)

/-- jobs.services.create_and_submit_job, specialized to the Boltz-2
runner (whose `validate` returns no errors).  Ambient inputs made
explicit: the environment `env`, the filesystem, the fresh job UUID, the
current time, and the sbatch stdout used in live mode. -/
def createAndSubmitJob (env : SubmissionEnv) (fs : FS)
    (owner name runnerKey : String) (sequences : String) (params : BoltzParams)
    (modelKey : String) (inputPayload : Option InputPayload)
    (freshId : String) (now : ℚ) (sbatchStdout : Option String) : SubmitResult :=
  match admissionCheck env runnerKey with
  | some e => SubmitResult.rejected e
  | none =>
    let name := pyStrip name
    let sequences := pyStrip sequences
    let hasFiles := (inputPayload.getD {}).files ≠ []
    let hasParams := (inputPayload.getD {}).params ≠ ({} : BoltzParams)
    if sequences = "" ∧ ¬ hasFiles ∧ ¬ hasParams then
      SubmitResult.rejected "No input provided."
    else if sequences.length > maxSequenceChars then
      SubmitResult.rejected "Sequences too large (>200000 chars)."
    else
      let job : Job :=
        { id := freshId,
          owner := owner,
          name := name,
          runner := runnerKey,
          model_key := modelKey,
          status := JobStatus.PENDING,
          sequences := sequences,
          params := params,
          input_payload_files := (inputPayload.getD {}).files.map (fun f => f.1),
          created_at := now }
      let fs1 := prepareWorkdir env.st job (inputPayload.getD {}) fs
      let config := getRunnerConfig env runnerKey
      let script := boltzBuildScript env.st job (some config)
      match slurmSubmit env.st fs1 script job.id now sbatchStdout with
      | Except.ok (sid, fs2) =>
        SubmitResult.ok { job with slurm_job_id := sid, submitted_at := some now } fs2
      | Except.error e =>
        SubmitResult.failedJob
          { job with status := JobStatus.FAILED,
                     error_message := e,
                     completed_at := some now } fs1 e

/- ------------------------------------------------------------------
Retention sweep (console/services/cleanup.py).
------------------------------------------------------------------ -/

/-- Ambient state the cleanup service reads: settings, the staff flag and
the UserQuota row of each owner. -/
structure CleanupEnv where
  st : Settings := {}
  ownerIsStaff : String → Bool := fun _ => false
  quotaDB : String → Option UserQuota := fun _ => none

/-- console.services.cleanup.get_retention_days: staff owners use the
settings default; otherwise the owner quota row, falling back to the
settings default when the row is absent. -/
def getRetentionDays (env : CleanupEnv) (owner : String) : Nat :=
  if env.ownerIsStaff owner then env.st.default_retention_days
  else
    match env.quotaDB owner with
    | some q => q.retention_days
    | none => env.st.default_retention_days

/-- Eligibility for the retention sweep (get_jobs_for_cleanup, with no
override): terminal status, a recorded completion time, a non-zero
retention window, and completion strictly before `now` minus the window
(in days of 86400 seconds). -/
def cleanupEligible (env : CleanupEnv) (now : ℚ) (j : Job) : Bool :=
  j.status.isTerminal && j.completed_at.isSome &&
    (let rd := getRetentionDays env j.owner
     rd ≠ 0 && decide (j.completed_at.getD 0 < now - (rd : ℚ) * 86400))

/-- console.services.cleanup.cleanup_jobs with dry_run=False: for every
eligible job, delete its on-disk workdir tree; the job rows themselves are
never written.  Returns the (unchanged) ledger and the new filesystem. -/
def cleanupJobs (env : CleanupEnv) (db : List Job) (fs : FS) (now : ℚ) :
    List Job × FS :=
  (db,
    db.foldl
      (fun acc j =>
        if cleanupEligible env now j then fsRemoveTree acc (workdirPath env.st j)
        else acc)
      fs)

/- ------------------------------------------------------------------
Output downloads (jobs/views.py download_file, api/views.py job_download).
------------------------------------------------------------------ -/

/-- str.split on the path separator, over the character list. -/
def splitOnSlash : List Char → List (List Char)
  | [] => [[]]
  | c :: rest =>
    match splitOnSlash rest with
    | [] => [[]]
    | cur :: parts =>
      if c = '/' then [] :: cur :: parts
      else (c :: cur) :: parts

/-- str.split on the path separator. -/
def pySplitSlash (s : String) : List String :=
  (splitOnSlash s.data).map String.mk

/-- pathlib PurePath parts of a relative path string: split on the
separator, dropping empty and single-dot components (`..` is kept). -/
def pyPathParts (s : String) : List String :=
  (pySplitSlash s).filter (fun c => c ≠ "" && c ≠ ".")

/-- pathlib PurePath(name).name: the last part, or the empty string. -/
def pyPathName (s : String) : String :=
  ((pyPathParts s).getLast?).getD ""

/-- Lexical Path.resolve() on an absolute component path (symlinks are
outside the model): process `.` and empty components by dropping them and
`..` by removing the previous component (at the root, `..` is a no-op). -/
def resolvePath (p : List String) : List String :=
  p.foldl
    (fun acc c =>
      if c = "" || c = "." then acc
      else if c = ".." then acc.dropLast
      else acc ++ [c])
    []

/-- Result of a download request. -/
inductive DownloadResult
  | served (p : List String) (content : String)
  | notFound
  | invalidPath
deriving DecidableEq, Repr

/-- jobs.views.download_file: reduce the requested filename to its
basename, look it up directly inside `{workdir}/output`, and 404 when the
resolved location is not an existing file.  The on-disk filesystem stores
canonical paths, so the lookup resolves the path first (a basename of
`..` or an empty basename then denotes a directory, never a file). -/
def webDownloadFile (st : Settings) (j : Job) (fs : FS) (filename : String) :
    DownloadResult :=
  let safeName := pyPathName filename
  let p := resolvePath (workdirPath st j ++ ["output", safeName])
  match fsRead fs p with
  | some c => DownloadResult.served p c
  | none => DownloadResult.notFound

/-- api.views.job_download: resolve `{workdir}/output/{filename}` (the
filename may contain separators and `..` components), reject the request
as invalid when the resolved path is not under the resolved output
directory, then 404 when no file exists there. -/
def apiJobDownload (st : Settings) (j : Job) (fs : FS) (filename : String) :
    DownloadResult :=
  let outdir := resolvePath (workdirPath st j ++ ["output"])
  let p := resolvePath (workdirPath st j ++ ["output"] ++ pySplitSlash filename)
  if ¬ outdir <+: p then DownloadResult.invalidPath
  else
    match fsRead fs p with
    | some c => DownloadResult.served p c
    | none => DownloadResult.notFound

/- ------------------------------------------------------------------
Helper lemmas: substring occurrence in concatenated text.
------------------------------------------------------------------ -/

/-- A list prefix is in particular a contiguous sublist. -/
theorem prefixToSub {α : Type} {l₁ l₂ : List α} (h : l₁ <+: l₂) : l₁ <:+: l₂ := by
  obtain ⟨r, hr⟩ := h
  exact ⟨[], r, by simpa using hr⟩

/-- Two prefixes of the same list are comparable. -/
theorem prefixTotal {α : Type} {l₁ l₂ l₃ : List α} (h1 : l₁ <+: l₃)
    (h2 : l₂ <+: l₃) : l₁ <+: l₂ ∨ l₂ <+: l₁ := by
  exact List.prefix_or_prefix_of_prefix h1 h2

/-- Cleanliness `Clean pat s`: the pattern `pat` does not occur contiguously in `s`,
and no nonempty suffix of `s` begins an occurrence of `pat` (so that an
occurrence cannot straddle the boundary when further text is appended). -/
def Clean (pat s : List Char) : Prop :=
  ¬ pat <:+: s ∧ ∀ t ∈ s.tails, t ≠ [] → ¬ t <+: pat

instance (pat s : List Char) : Decidable (Clean pat s) := by
  unfold Clean
  infer_instance

/-- The empty text is clean for any nonempty pattern. -/
theorem clean_nil {pat : List Char} (hpat : pat ≠ []) : Clean pat [] := by
  refine ⟨fun h => hpat (List.eq_nil_of_infix_nil h), ?_⟩
  intro t ht hne
  rw [List.mem_tails] at ht
  obtain ⟨r, hr⟩ := ht
  exact absurd (List.append_eq_nil.mp hr).2 hne

/-- Cleanliness is preserved by concatenation. -/
theorem clean_append {pat a b : List Char} (_hpat : pat ≠ [])
    (ha : Clean pat a) (hb : Clean pat b) : Clean pat (a ++ b) := by
  induction a with
  | nil => simpa using hb
  | cons c a ih =>
    have ha' : Clean pat a := by
      refine ⟨fun h => ha.1 (List.infix_cons h), ?_⟩
      intro t ht hne
      refine ha.2 t ?_ hne
      rw [List.mem_tails] at ht ⊢
      exact ht.trans (List.suffix_cons c a)
    have hca_mem : (c :: a) ∈ (c :: a).tails :=
      (List.mem_tails _ _).mpr List.suffix_rfl
    have hrest := ih ha'
    constructor
    · intro h
      rcases List.infix_cons_iff.mp h with hpre | hinf
      · have hpre' : pat <+: (c :: a) ++ b := by simpa using hpre
        have hca : (c :: a) <+: (c :: a) ++ b := List.prefix_append _ _
        rcases prefixTotal hpre' hca with h1 | h1
        · exact ha.1 (prefixToSub h1)
        · exact ha.2 (c :: a) hca_mem (by simp) h1
      · exact hrest.1 hinf
    · intro t ht hne hpref
      rw [List.mem_tails] at ht
      rcases List.suffix_cons_iff.mp ht with rfl | hsuf
      · have hca : (c :: a) <+: c :: (a ++ b) := ⟨b, by simp⟩
        exact ha.2 (c :: a) hca_mem (by simp) (hca.trans hpref)
      · exact hrest.2 t ((List.mem_tails _ _).mpr hsuf) hne hpref

/-- Text avoiding the head character of the pattern is clean. -/
theorem clean_of_head_not_mem {c : Char} {pat s : List Char}
    (hhead : pat.head? = some c) (h : c ∉ s) : Clean pat s := by
  have hcpat : c ∈ pat := by
    cases pat with
    | nil => simp at hhead
    | cons p ps =>
      simp only [List.head?_cons, Option.some.injEq] at hhead
      simp [hhead]
  constructor
  · rintro ⟨u, v, huv⟩
    exact h (huv ▸ List.mem_append.mpr (Or.inl (List.mem_append.mpr (Or.inr hcpat))))
  · intro t ht hne hpref
    apply h
    have hts : t <:+ s := (List.mem_tails _ _).mp ht
    obtain ⟨r, rfl⟩ := hts
    cases t with
    | nil => exact absurd rfl hne
    | cons t0 ts =>
      cases pat with
      | nil => simp at hhead
      | cons p ps =>
        simp only [List.head?_cons, Option.some.injEq] at hhead
        have ht0 : t0 = p := (List.cons_prefix_cons.mp hpref).1
        subst hhead
        simp [ht0]

/-- Cleanliness propagates through str.join. -/
theorem clean_strJoinSep {pat : List Char} {sep : String} {l : List String}
    (hpat : pat ≠ []) (hsep : Clean pat sep.data)
    (hl : ∀ x ∈ l, Clean pat x.data) :
    Clean pat (strJoinSep sep l).data := by
  induction l with
  | nil =>
    have : (strJoinSep sep []).data = [] := rfl
    rw [this]
    exact clean_nil hpat
  | cons x xs ih =>
    cases xs with
    | nil =>
      have : strJoinSep sep [x] = x := rfl
      rw [this]
      exact hl x (by simp)
    | cons y ys =>
      have hx : Clean pat x.data := hl x (by simp)
      have hrest : Clean pat (strJoinSep sep (y :: ys)).data :=
        ih (fun z hz => hl z (List.mem_cons_of_mem x hz))
      have : strJoinSep sep (x :: y :: ys) = x ++ sep ++ strJoinSep sep (y :: ys) := rfl
      rw [this, String.data_append, String.data_append]
      exact clean_append hpat (clean_append hpat hx hsep) hrest

/-- Cleanliness propagates through piecewise concatenation. -/
theorem clean_strConcat {pat : List Char} {l : List String} (hpat : pat ≠ [])
    (hl : ∀ x ∈ l, Clean pat x.data) : Clean pat (strConcat l).data := by
  induction l with
  | nil => exact clean_nil hpat
  | cons x xs ih =>
    have : strConcat (x :: xs) = x ++ strConcat xs := rfl
    rw [this, String.data_append]
    exact clean_append hpat (hl x (by simp))
      (ih (fun z hz => hl z (List.mem_cons_of_mem x hz)))

/- ------------------------------------------------------------------
Helper lemmas: hash-free text.
------------------------------------------------------------------ -/

/-- The predicate `hashFree s`: the string contains no `#` character. -/
def hashFree (s : String) : Prop := '#' ∉ s.data

instance (s : String) : Decidable (hashFree s) := by
  unfold hashFree
  infer_instance

/-- Hash-free text is clean for any pattern that starts with `#`. -/
theorem clean_of_hashFree {pat : List Char} {s : String}
    (hhead : pat.head? = some '#') (h : hashFree s) : Clean pat s.data :=
  clean_of_head_not_mem hhead h

theorem hashFree_append {a b : String} (ha : hashFree a) (hb : hashFree b) :
    hashFree (a ++ b) := by
  simp only [hashFree, String.data_append, List.mem_append] at *
  tauto

theorem hashFree_strJoinSep {sep : String} {l : List String}
    (hsep : hashFree sep) (hl : ∀ x ∈ l, hashFree x) :
    hashFree (strJoinSep sep l) := by
  induction l with
  | nil =>
    simp [hashFree, strJoinSep]
  | cons x xs ih =>
    cases xs with
    | nil => exact hl x (by simp)
    | cons y ys =>
      have : strJoinSep sep (x :: y :: ys) = x ++ sep ++ strJoinSep sep (y :: ys) := rfl
      rw [this]
      exact hashFree_append (hashFree_append (hl x (by simp)) hsep)
        (ih (fun z hz => hl z (List.mem_cons_of_mem x hz)))

theorem digitChar_ne_hash (n : Nat) : Nat.digitChar n ≠ '#' := by
  by_cases h : n < 16
  · interval_cases n <;> decide
  · have he : Nat.digitChar n = '*' := by
      simp only [Nat.digitChar]
      repeat rw [if_neg (by omega)]
    rw [he]
    decide

theorem toDigitsCore_ne_hash (fuel : Nat) :
    ∀ (n : Nat) (ds : List Char), (∀ c ∈ ds, c ≠ '#') →
      ∀ c ∈ Nat.toDigitsCore 10 fuel n ds, c ≠ '#' := by
  induction fuel with
  | zero =>
    intro n ds hds c hc
    exact hds c hc
  | succ fuel ih =>
    intro n ds hds c hc
    rw [Nat.toDigitsCore] at hc
    by_cases hlt : n / 10 = 0
    · rw [if_pos hlt] at hc
      rcases List.mem_cons.mp hc with rfl | hmem
      · exact digitChar_ne_hash _
      · exact hds c hmem
    · rw [if_neg hlt] at hc
      refine ih (n / 10) (Nat.digitChar (n % 10) :: ds) ?_ c hc
      intro d hd
      rcases List.mem_cons.mp hd with rfl | hmem
      · exact digitChar_ne_hash _
      · exact hds d hmem

/-- Decimal representations of naturals contain no `#`. -/
theorem hashFree_natRepr (n : Nat) : hashFree (toString n) := by
  intro h
  have : Nat.repr n = (Nat.toDigits 10 n).asString := rfl
  have hdata : (toString n).data = Nat.toDigitsCore 10 (n + 1) n [] := rfl
  rw [hdata] at h
  exact toDigitsCore_ne_hash (n + 1) n [] (by simp) '#' h rfl

/- ------------------------------------------------------------------
Helper lemmas: str.strip, filesystem reads and writes.
------------------------------------------------------------------ -/

theorem dropWhile_dropWhile (p : Char → Bool) (l : List Char) :
    (l.dropWhile p).dropWhile p = l.dropWhile p := by
  induction l with
  | nil => rfl
  | cons c l ih =>
    by_cases h : p c
    · rw [List.dropWhile_cons, if_pos h, ih]
    · rw [List.dropWhile_cons, if_neg h, List.dropWhile_cons, if_neg h]

theorem dropWhile_head_not (p : Char → Bool) (l : List Char) :
    ∀ c, (l.dropWhile p).head? = some c → p c = false := by
  induction l with
  | nil => intro c h; simp at h
  | cons a l ih =>
    intro c h
    by_cases hpa : p a
    · rw [List.dropWhile_cons, if_pos hpa] at h
      exact ih c h
    · rw [List.dropWhile_cons, if_neg hpa] at h
      simp only [List.head?_cons, Option.some.injEq] at h
      subst h
      simpa using hpa

theorem dropWhile_eq_self_of_head (p : Char → Bool) (l : List Char)
    (h : ∀ c, l.head? = some c → p c = false) : l.dropWhile p = l := by
  cases l with
  | nil => rfl
  | cons a l =>
    rw [List.dropWhile_cons, if_neg]
    simp [h a rfl]

theorem getLast?_of_suffix {l t : List Char} (h : t <:+ l) (hne : t ≠ []) :
    t.getLast? = l.getLast? := by
  obtain ⟨r, rfl⟩ := h
  rw [List.getLast?_append_of_ne_nil r hne]

/-- str.strip is idempotent. -/
theorem pyStripList_idem (l : List Char) :
    pyStripList (pyStripList l) = pyStripList l := by
  set p := isPySpace
  set m := l.dropWhile p with hm
  set w := (m.reverse).dropWhile p with hw
  have hstrip : pyStripList l = w.reverse := rfl
  rw [hstrip]
  show ((((w.reverse).dropWhile p).reverse).dropWhile p).reverse = w.reverse
  have hB : (w.reverse).dropWhile p = w.reverse := by
    rcases Decidable.em (w = []) with hwnil | hwne
    · rw [hwnil]; rfl
    · refine dropWhile_eq_self_of_head p w.reverse ?_
      intro c hc
      rw [List.head?_reverse] at hc
      have hsuf : w <:+ m.reverse := by
        rw [hw]; exact List.dropWhile_suffix p
      have hlast : w.getLast? = (m.reverse).getLast? := getLast?_of_suffix hsuf hwne
      rw [hlast, List.getLast?_reverse] at hc
      exact dropWhile_head_not p l c (by rw [← hm]; exact hc)
  rw [hB, List.reverse_reverse]
  have hC : w.dropWhile p = w := by
    rw [hw]; exact dropWhile_dropWhile p m.reverse
  rw [hC]

/-- str.strip is idempotent (string version). -/
theorem pyStrip_idem (s : String) : pyStrip (pyStrip s) = pyStrip s := by
  unfold pyStrip
  show String.mk (pyStripList (pyStripList s.data)) = String.mk (pyStripList s.data)
  rw [pyStripList_idem]

theorem fsRead_write_self (fs : FS) (p : List String) (c : String) :
    fsRead (fsWrite fs p c) p = some c := by
  simp [fsRead, fsWrite, List.find?_cons]

theorem find?_filter_ne {p q : List String} (h : ¬ p = q) (fs : FS) :
    List.find? (fun e => decide (e.1 = p))
        (List.filter (fun e => decide (¬ e.1 = q)) fs) =
      List.find? (fun e => decide (e.1 = p)) fs := by
  induction fs with
  | nil => rfl
  | cons e fs ih =>
    by_cases hep : e.1 = p
    · have heq : decide (¬ e.1 = q) = true := by
        simp only [decide_eq_true_eq]
        intro hq
        exact h (hep ▸ hq ▸ rfl)
      rw [List.filter_cons, if_pos heq,
        List.find?_cons_of_pos _ (by simpa using hep),
        List.find?_cons_of_pos _ (by simpa using hep)]
    · by_cases heq : e.1 = q
      · rw [List.filter_cons, if_neg (by simp [heq]),
          List.find?_cons_of_neg _ (by simpa using hep)]
        exact ih
      · rw [List.filter_cons, if_pos (by simp [heq]),
          List.find?_cons_of_neg _ (by simpa using hep),
          List.find?_cons_of_neg _ (by simpa using hep)]
        exact ih

theorem fsRead_write_ne {p q : List String} (fs : FS) (c : String) (h : ¬ p = q) :
    fsRead (fsWrite fs q c) p = fsRead fs p := by
  unfold fsRead fsWrite
  rw [List.find?_cons_of_neg _ (by simpa using fun hh : q = p => h hh.symm)]
  have hfun : (fun e : List String × String => (¬ e.1 = q : Bool)) =
      (fun e : List String × String => decide (¬ e.1 = q)) := rfl
  rw [congrArg (List.filter · fs) hfun, find?_filter_ne h fs]

/-- A string starting with the FAKE marker is nonempty. -/
theorem fakeId_ne_empty (s : String) : ¬ ("FAKE-" ++ s) = "" := by
  intro h
  have hd : ("FAKE-" ++ s).data = "".data := by rw [h]
  rw [String.data_append] at hd
  have h5 : ("FAKE-".data ++ s.data).length = ("".data).length := by rw [hd]
  rw [List.length_append] at h5
  have hf : ("FAKE-".data).length = 5 := rfl
  have he : ("".data).length = 0 := rfl
  omega

/- ------------------------------------------------------------------
Claim C6: simulated scheduler phases.
------------------------------------------------------------------ -/

/-- C6: in simulated scheduler mode, for a job whose start timestamp was
recorded at time T, check_status returns PENDING at every query time in
[T, T+5s), RUNNING at every query time in [T+5s, T+15s), and COMPLETED at
every query time from T+15s onward, unless the cancellation marker file
exists, in which case it returns FAILED (the marker exists at every time
at or after cancellation). -/
theorem C6_fake_scheduler_phases (t now : ℚ) (w : FakeWorkdir)
    (hw : w.startedAt = some (some t)) :
    (w.canceledExists = false →
      ((t ≤ now ∧ now < t + 5) → checkStatusFake w now = SlurmStatus.PENDING) ∧
      ((t + 5 ≤ now ∧ now < t + 15) → checkStatusFake w now = SlurmStatus.RUNNING) ∧
      (t + 15 ≤ now → checkStatusFake w now = SlurmStatus.COMPLETED)) ∧
    (w.canceledExists = true → checkStatusFake w now = SlurmStatus.FAILED) := by
  unfold checkStatusFake
  constructor
  · intro hc
    rw [hc]
    simp only [Bool.false_eq_true, if_false, hw]
    refine ⟨?_, ?_, ?_⟩ <;> intro h
    · rw [if_pos (by linarith [h.1, h.2])]
    · rw [if_neg (by linarith [h.1, h.2]), if_pos (by linarith [h.1, h.2])]
    · rw [if_neg (by linarith), if_neg (by linarith)]
  · intro hc
    rw [hc]
    simp

/-- Witness for C6 at concrete inputs: the simulated scheduler reports
PENDING two seconds after start, and FAILED under a cancel marker. -/
theorem C6_fake_scheduler_phases_witness :
    checkStatusFake ⟨false, some (some 0)⟩ 2 = SlurmStatus.PENDING ∧
    checkStatusFake ⟨true, some (some 0)⟩ 20 = SlurmStatus.FAILED := by
  constructor
  · exact ((C6_fake_scheduler_phases 0 2 ⟨false, some (some 0)⟩ rfl).1 rfl).1
      ⟨by norm_num, by norm_num⟩
  · exact (C6_fake_scheduler_phases 0 20 ⟨true, some (some 0)⟩ rfl).2 rfl

/- ------------------------------------------------------------------
Claim C2: terminal states are absorbing.
------------------------------------------------------------------ -/

/-- C2: for every Job whose status is COMPLETED or FAILED, no operation of
the system (lifecycle poller step, admin cancel, admin hide, user cancel
through the web UI, cancel through the REST API) ever changes that
status. -/
theorem C2_terminal_states_absorbing (j : Job) (h : j.status.isTerminal = true)
    (sched : SlurmStatus) (now : ℚ) (actor : String) :
    (pollerStep j sched now).status = j.status ∧
    (cancelJobAdmin j actor now).1.status = j.status ∧
    (hideJobFromOwner j actor now).1.status = j.status ∧
    (userCancelJob j now).status = j.status ∧
    (apiCancelJob j now).1.status = j.status := by
  have hact : j.status.isActive = false := by
    cases hj : j.status <;> rw [hj] at h <;> first
      | rfl
      | exact absurd h (by simp [JobStatus.isTerminal])
  have hquery : inPollerQueryset j = false := by
    unfold inPollerQueryset
    rw [hact, Bool.false_and]
  refine ⟨?_, ?_, ?_, ?_, ?_⟩
  · unfold pollerStep
    rw [if_pos (by simp [hquery])]
  · unfold cancelJobAdmin
    rw [if_pos (by simp [hact])]
  · unfold hideJobFromOwner
    by_cases hh : j.hidden_from_owner
    · rw [if_pos hh]
    · rw [if_neg hh]
      simp only [hact, Bool.false_and, Bool.false_eq_true, if_false]
  · unfold userCancelJob
    rw [if_neg (by simp [hact])]
  · unfold apiCancelJob
    rw [if_pos (by simp [hact])]

/-- A concrete COMPLETED job used to witness terminal-state absorption. -/
def c2JobW : Job :=
  { id := "j-c2", owner := "alice", status := JobStatus.COMPLETED,
    slurm_job_id := "77", completed_at := some 100 }

/-- Witness for C2: a concrete COMPLETED job is left COMPLETED by every
operation. -/
theorem C2_terminal_states_absorbing_witness :
    (pollerStep c2JobW SlurmStatus.FAILED 200).status = c2JobW.status ∧
    (cancelJobAdmin c2JobW "admin" 200).1.status = c2JobW.status ∧
    (hideJobFromOwner c2JobW "admin" 200).1.status = c2JobW.status ∧
    (userCancelJob c2JobW 200).status = c2JobW.status ∧
    (apiCancelJob c2JobW 200).1.status = c2JobW.status :=
  C2_terminal_states_absorbing c2JobW rfl SlurmStatus.FAILED 200 "admin"

/- ------------------------------------------------------------------
Claim C3: staleness handling of jobs unknown to the scheduler.
------------------------------------------------------------------ -/

/-- The scheduler answers UNKNOWN continuously over the interval
[u, now]. -/
def unknownSince (sched : ℚ → SlurmStatus) (u now : ℚ) : Prop :=
  u ≤ now ∧ ∀ t, u ≤ t → t ≤ now → sched t = SlurmStatus.UNKNOWN

/-- The literal statement of claim C3: (1) a submitted, still-tracked job
continuously unknown to the scheduler for longer than the staleness
threshold is failed by a poller run, with the explanatory message and
completed_at stamped; (2) a job whose UNKNOWN spell is within the
threshold is left unchanged by the poller; (3) a job never submitted is
left unchanged by the poller. -/
def ClaimC3 : Prop :=
  (∀ (j : Job) (sched : ℚ → SlurmStatus) (u now s : ℚ),
      j.status.isActive = true → j.slurm_job_id ≠ "" →
      j.submitted_at = some s → s ≤ u →
      unknownSince sched u now → now - u > staleJobTimeout →
      pollerStep j (sched now) now =
        { j with status := JobStatus.FAILED,
                 error_message := staleJobMessage,
                 completed_at := some now }) ∧
  (∀ (j : Job) (sched : ℚ → SlurmStatus) (u now : ℚ),
      j.status.isActive = true → j.slurm_job_id ≠ "" →
      j.submitted_at ≠ none →
      unknownSince sched u now →
      (∀ t, t < u → sched t ≠ SlurmStatus.UNKNOWN) →
      now - u ≤ staleJobTimeout →
      pollerStep j (sched now) now = j) ∧
  (∀ (j : Job) (sched : ℚ → SlurmStatus) (now : ℚ),
      j.slurm_job_id = "" → pollerStep j (sched now) now = j)

/-- C3 as stated is false on the code: the poller compares `now` against
`submitted_at`, not against the start of the UNKNOWN spell.  A PENDING
job submitted at time 0 whose scheduler answer turned UNKNOWN only at
time 7199 (an UNKNOWN spell of one second, far below the one-hour
threshold) is nevertheless force-failed by a poll at time 7200. -/
theorem C3_unknown_duration_counterexample : ¬ ClaimC3 := by
  intro hcl
  have h2 := hcl.2.1
  set sched0 : ℚ → SlurmStatus :=
    fun t => if t < 7199 then SlurmStatus.PENDING else SlurmStatus.UNKNOWN with hsched
  set j0 : Job := { id := "j-c3", owner := "bob", status := JobStatus.PENDING,
                    slurm_job_id := "123", submitted_at := some 0 } with hj0
  have hunk : unknownSince sched0 7199 7200 := by
    refine ⟨by norm_num, ?_⟩
    intro t ht _
    rw [hsched]
    simp only
    rw [if_neg (by linarith)]
  have hbefore : ∀ t, t < (7199 : ℚ) → sched0 t ≠ SlurmStatus.UNKNOWN := by
    intro t ht
    rw [hsched]
    simp only
    rw [if_pos ht]
    simp
  have heq := h2 j0 sched0 7199 7200 rfl (by rw [hj0]; simp) (by rw [hj0]; simp)
    hunk hbefore (by unfold staleJobTimeout; norm_num)
  have hs : sched0 7200 = SlurmStatus.UNKNOWN := by
    rw [hsched]
    simp only
    rw [if_neg (by norm_num)]
  rw [hs] at heq
  have hstat : (pollerStep j0 SlurmStatus.UNKNOWN 7200).status = JobStatus.FAILED := by
    unfold pollerStep inPollerQueryset slurmToJobStatus
    rw [hj0]
    simp only
    rw [if_neg (by simp [JobStatus.isActive])]
    rw [if_pos (by unfold staleJobTimeout; norm_num)]
  rw [heq] at hstat
  rw [hj0] at hstat
  exact absurd hstat (by simp)

/-- C3 amended: the poller's staleness rule is keyed to the time since
submission, not to the length of the UNKNOWN spell.  A PENDING/RUNNING
job with a scheduler id that polls UNKNOWN is failed (with the
explanatory message and completed_at set) exactly when more than the
staleness threshold has elapsed since submitted_at; within that window it
is left unchanged, and a job with no scheduler id is never touched. -/
theorem C3_poller_stale_amended (j : Job) (now : ℚ) :
    (j.slurm_job_id = "" → pollerStep j SlurmStatus.UNKNOWN now = j) ∧
    (∀ s, j.status.isActive = true → j.slurm_job_id ≠ "" →
      j.submitted_at = some s →
      (now - s > staleJobTimeout →
        pollerStep j SlurmStatus.UNKNOWN now =
          { j with status := JobStatus.FAILED,
                   error_message := staleJobMessage,
                   completed_at := some now }) ∧
      (now - s ≤ staleJobTimeout →
        pollerStep j SlurmStatus.UNKNOWN now = j)) := by
  constructor
  · intro hid
    unfold pollerStep inPollerQueryset
    rw [if_pos (by simp [hid])]
  · intro s hact hid hsub
    have hquery : inPollerQueryset j = true := by
      unfold inPollerQueryset
      rw [hact, Bool.true_and]
      simpa using hid
    constructor <;> intro hthr
    · unfold pollerStep slurmToJobStatus
      simp [hquery, hsub, hthr]
    · have hnot : ¬ now - s > staleJobTimeout := not_lt.mpr hthr
      unfold pollerStep slurmToJobStatus
      simp [hquery, hsub, hnot]

/-- A PENDING job submitted two hours before the poll. -/
def c3JobOldW : Job :=
  { id := "j-c3-old", owner := "bob", status := JobStatus.PENDING,
    slurm_job_id := "9", submitted_at := some 0 }

/-- A PENDING job submitted ten minutes before the poll. -/
def c3JobNewW : Job :=
  { id := "j-c3-new", owner := "bob", status := JobStatus.PENDING,
    slurm_job_id := "10", submitted_at := some 0 }

/-- A PENDING job that was never submitted. -/
def c3JobNoneW : Job :=
  { id := "j-c3-none", owner := "bob", status := JobStatus.PENDING }

/-- Witness for the amended C3: a job submitted two hours before the poll
is failed on an UNKNOWN answer, while one submitted ten minutes before is
left unchanged, and an unsubmitted job is untouched. -/
theorem C3_poller_stale_amended_witness :
    pollerStep c3JobOldW SlurmStatus.UNKNOWN 7200 =
      { c3JobOldW with status := JobStatus.FAILED,
                       error_message := staleJobMessage,
                       completed_at := some 7200 } ∧
    pollerStep c3JobNewW SlurmStatus.UNKNOWN 600 = c3JobNewW ∧
    pollerStep c3JobNoneW SlurmStatus.UNKNOWN 7200 = c3JobNoneW := by
  refine ⟨?_, ?_, ?_⟩
  · exact (((C3_poller_stale_amended c3JobOldW 7200).2 0 rfl (by simp [c3JobOldW]) rfl).1
      (by unfold staleJobTimeout; norm_num))
  · exact (((C3_poller_stale_amended c3JobNewW 600).2 0 rfl (by simp [c3JobNewW]) rfl).2
      (by unfold staleJobTimeout; norm_num))
  · exact (C3_poller_stale_amended c3JobNoneW 7200).1 rfl

/- ------------------------------------------------------------------
Claim C4: order of the admission checks.
------------------------------------------------------------------ -/

/-- C4: the admission checks are evaluated in the fixed order maintenance
mode, runner enabled, account disabled, concurrent limit, queued limit,
daily limit, and the message reported is that of the first failing check;
in particular a non-staff user whose quota row is disabled — even while
over any quota limit — is rejected with the disabled-account message,
never a quota message. -/
theorem C4_admission_check_order :
    (∀ (env : SubmissionEnv) (key : String),
      admissionCheck env key = firstFailure (orderedAdmissionChecks env key)) ∧
    (∀ (env : SubmissionEnv) (key : String),
      env.maintenance_mode = false → isRunnerEnabled env key = true →
      env.isStaff = false → (effectiveQuota env).is_disabled = true →
      admissionCheck env key = some (disabledAccountMessage (effectiveQuota env))) := by
  constructor
  · intro env key
    unfold admissionCheck checkMaintenanceMode checkRunnerEnabled checkQuota
      orderedAdmissionChecks firstFailure effectiveQuota
    by_cases hm : env.maintenance_mode = true
    · simp [hm]
    · by_cases hr : isRunnerEnabled env key = true
      · by_cases hs : env.isStaff = true
        · simp [hm, hr, hs]
        · by_cases hd : (getUserQuota env.st env.quotaRecord).1.is_disabled = true
          · simp [hm, hr, hs, hd]
          · by_cases h1 : env.running_count ≥
                (getUserQuota env.st env.quotaRecord).1.max_concurrent_jobs
            · simp [hm, hr, hs, hd, h1]
            · by_cases h2 : env.pending_count ≥
                  (getUserQuota env.st env.quotaRecord).1.max_queued_jobs
              · simp [hm, hr, hs, hd, h1, h2]
              · by_cases h3 : env.jobs_today ≥
                    (getUserQuota env.st env.quotaRecord).1.jobs_per_day
                · simp [hm, hr, hs, hd, h1, h2, h3]
                · simp [hm, hr, hs, hd, h1, h2, h3]
      · simp [hm, hr]
  · intro env key hm hr hs hd
    unfold admissionCheck checkMaintenanceMode checkRunnerEnabled checkQuota
    unfold effectiveQuota at hd ⊢
    simp [hm, hr, hs, hd]

/-- A concrete submission environment: a non-staff user with a disabled
quota row who is simultaneously over every quota limit. -/
def c4EnvW : SubmissionEnv :=
  { isStaff := false,
    quotaRecord := some { max_concurrent_jobs := 0, max_queued_jobs := 0,
                          jobs_per_day := 0, is_disabled := true,
                          disabled_reason := "abuse" },
    running_count := 5, pending_count := 5, jobs_today := 5 }

/-- Witness for C4: the disabled over-quota user is rejected with the
disabled-account message, not a quota message. -/
theorem C4_admission_check_order_witness :
    admissionCheck c4EnvW "boltz-2" =
      some "Your account has been disabled: abuse" :=
  (C4_admission_check_order.2 c4EnvW "boltz-2" rfl rfl rfl rfl).trans rfl

/- ------------------------------------------------------------------
Claim C5: staff exemption from quota gating.
------------------------------------------------------------------ -/

/-- The literal statement of claim C5: for every staff user the quota
check passes regardless of the stored record, and a UserQuota record is
nevertheless created (for bookkeeping) on a first submission attempt
(one with no stored record yet). -/
def ClaimC5 : Prop :=
  ∀ (env : SubmissionEnv), env.isStaff = true →
    (checkQuota env).1 = none ∧
    (env.quotaRecord = none → (checkQuota env).2 ≠ none)

/-- C5 as stated is false on the code: check_quota returns for staff
users before get_user_quota runs, so a staff submission attempt with no
stored UserQuota row leaves the table untouched — no bookkeeping row is
created. -/
theorem C5_staff_quota_counterexample : ¬ ClaimC5 := by
  intro hcl
  have h := (hcl { isStaff := true } rfl).2 rfl
  exact h rfl

/-- C5 amended: admission control never consults the UserQuota record for
staff (the quota check passes regardless of its contents) and no record
is created for staff by a submission attempt — the quota table is left
exactly as it was; lazy creation happens precisely on the first
submission attempt of a non-staff user. -/
theorem C5_staff_quota_amended (env : SubmissionEnv) :
    (env.isStaff = true →
      (checkQuota env).1 = none ∧ (checkQuota env).2 = env.quotaRecord) ∧
    (env.isStaff = false → (checkQuota env).2 ≠ none) := by
  constructor
  · intro hs
    unfold checkQuota
    simp [hs]
  · intro hs
    have hstored : (getUserQuota env.st env.quotaRecord).2 =
        some (getUserQuota env.st env.quotaRecord).1 := by
      unfold getUserQuota
      cases env.quotaRecord <;> rfl
    unfold checkQuota
    simp only [hs, Bool.false_eq_true, if_false]
    split_ifs <;> simp [hstored]

/-- A staff user whose stored quota row is disabled. -/
def c5StaffEnvW : SubmissionEnv :=
  { isStaff := true,
    quotaRecord := some { is_disabled := true, disabled_reason := "blocked" } }

/-- A first-time non-staff user with no quota row. -/
def c5NewUserEnvW : SubmissionEnv := { isStaff := false, quotaRecord := none }

/-- Witness for the amended C5: a staff user with an arbitrary disabled
record passes the quota gate with the table untouched, while a first-time
non-staff user gets a row created. -/
theorem C5_staff_quota_amended_witness :
    ((checkQuota c5StaffEnvW).1 = none ∧
      (checkQuota c5StaffEnvW).2 = c5StaffEnvW.quotaRecord) ∧
    (checkQuota c5NewUserEnvW).2 ≠ none :=
  ⟨(C5_staff_quota_amended c5StaffEnvW).1 rfl,
   (C5_staff_quota_amended c5NewUserEnvW).2 rfl⟩

/- ------------------------------------------------------------------
Claim C9: the script builder is deterministic.
------------------------------------------------------------------ -/

/-- C9: build_script is pure with respect to everything except the job
identity and parameter map and the configuration: two jobs agreeing on
`id` and `params` produce byte-identical scripts for every (possibly
absent) RunnerConfig, regardless of any other, mutable, job fields
(status, timestamps, scheduler id, error message, ...).  In particular
two calls on the same (Job, RunnerConfig) pair always return the same
text. -/
theorem C9_build_script_deterministic (st : Settings)
    (j1 j2 : Job) (config : Option RunnerConfig)
    (hid : j1.id = j2.id) (hparams : j1.params = j2.params) :
    boltzBuildScript st j1 config = boltzBuildScript st j2 config := by
  unfold boltzBuildScript boltzDockerArgs hostWorkdirStr
  rw [hid, hparams]

/-- Witness for C9: two rows with the same id and params but different
status, scheduler id and timestamps give identical scripts. -/
theorem C9_build_script_deterministic_witness :
    boltzBuildScript {}
        { id := "j-c9", owner := "alice", status := JobStatus.PENDING } none =
      boltzBuildScript {}
        { id := "j-c9", owner := "bob", status := JobStatus.FAILED,
          slurm_job_id := "42", submitted_at := some 3,
          completed_at := some 9, error_message := "boom" } none :=
  C9_build_script_deterministic {} _ _ none rfl rfl

/- ------------------------------------------------------------------
Claim C7: zero resources emit no scheduler resource directives.
------------------------------------------------------------------ -/

/-- The scheduler resource-directive markers: a resource directive line
is one that begins with one of these. -/
def resourceDirectiveMarkers : List String :=
  [ "#SBATCH --partition", "#SBATCH --gres", "#SBATCH --cpus-per-task",
    "#SBATCH --mem=", "#SBATCH --time=" ]

theorem mem_ite_singleton {α : Type} {P : Prop} [Decidable P] {a x : α}
    (h : x ∈ if P then [a] else []) : x = a := by
  split at h
  · simpa using h
  · simp at h

/-- A non-none truthiness filter answer reproduces the stored value. -/
theorem truthyStr_some {v : Option String} {w : String}
    (h : truthyStr v = some w) : v = some w := by
  rcases v with _ | s
  · simp [truthyStr] at h
  · simp only [truthyStr] at h
    by_cases hse : s = ""
    · rw [if_pos hse] at h
      exact absurd h (by simp)
    · rw [if_neg hse] at h
      exact h

/-- The command-line flags contain no hash character. -/
theorem hashFree_boltzFlags (p : BoltzParams)
    (hout : ∀ s, p.output_format = some s → hashFree s) :
    ∀ x ∈ boltzFlags p, hashFree x := by
  intro x hx
  unfold boltzFlags at hx
  simp only [List.mem_append] at hx
  rcases hx with ((((hx | hx) | hx) | hx) | hx) | hx
  · split at hx
    · rcases List.mem_singleton.mp hx with rfl
      decide
    · simp at hx
  · split at hx
    · rcases List.mem_singleton.mp hx with rfl
      decide
    · simp at hx
  · rcases hs : truthyStr p.output_format with _ | v
    · rw [hs] at hx
      simp at hx
    · rw [hs] at hx
      rcases List.mem_cons.mp hx with rfl | hx2
      · decide
      · rcases List.mem_singleton.mp hx2 with rfl
        exact hout x (truthyStr_some hs)
  · rcases hs : truthyNat p.recycling_steps with _ | v
    · rw [hs] at hx
      simp at hx
    · rw [hs] at hx
      rcases List.mem_cons.mp hx with rfl | hx2
      · decide
      · rcases List.mem_singleton.mp hx2 with rfl
        exact hashFree_natRepr v
  · rcases hs : truthyNat p.sampling_steps with _ | v
    · rw [hs] at hx
      simp at hx
    · rw [hs] at hx
      rcases List.mem_cons.mp hx with rfl | hx2
      · decide
      · rcases List.mem_singleton.mp hx2 with rfl
        exact hashFree_natRepr v
  · rcases hs : truthyNat p.diffusion_samples with _ | v
    · rw [hs] at hx
      simp at hx
    · rw [hs] at hx
      rcases List.mem_cons.mp hx with rfl | hx2
      · decide
      · rcases List.mem_singleton.mp hx2 with rfl
        exact hashFree_natRepr v

/-- The docker command block of the Boltz script contains no hash
character when the interpolated strings are hash-free. -/
theorem hashFree_boltzDocker (st : Settings) (j : Job) (c : RunnerConfig)
    (hid : hashFree j.id) (hwd : hashFree st.job_base_dir_host)
    (hcache : hashFree st.boltz_cache_dir) (himg : hashFree st.boltz_image)
    (himg2 : hashFree c.image_uri)
    (henv : ∀ kv ∈ c.extra_env, hashFree kv.1 ∧ hashFree kv.2)
    (hmnt : ∀ m ∈ c.extra_mounts, hashFree m.1 ∧ hashFree m.2)
    (hinp : ∀ s, j.params.input_filename = some s → hashFree s)
    (hout : ∀ s, j.params.output_format = some s → hashFree s) :
    hashFree (strJoinSep " \\\n  " (boltzDockerArgs st j (some c))) := by
  have hworkdir : hashFree (hostWorkdirStr st j) := by
    unfold hostWorkdirStr
    exact hashFree_append (hashFree_append hwd (by decide)) hid
  refine hashFree_strJoinSep (by decide) ?_
  intro x hx
  unfold boltzDockerArgs at hx
  simp only [List.mem_append, List.mem_cons, List.not_mem_nil, or_false,
    List.mem_map] at hx
  rcases hx with ((rfl | rfl | rfl | rfl | rfl | rfl) | (hx | hx)) | rfl
  · decide
  · decide
  · decide
  · decide
  · exact hashFree_append (hashFree_append (by decide) hworkdir) (by decide)
  · exact hashFree_append (hashFree_append (by decide) hcache) (by decide)
  · obtain ⟨kv, hkv, rfl⟩ := hx
    exact hashFree_append
      (hashFree_append (hashFree_append (by decide) (henv kv hkv).1) (by decide))
      (henv kv hkv).2
  · obtain ⟨m, hm, rfl⟩ := hx
    exact hashFree_append
      (hashFree_append (hashFree_append (by decide) (hmnt m hm).1) (by decide))
      (hmnt m hm).2
  · have himage : hashFree (if c.image_uri ≠ "" then c.image_uri else st.boltz_image) := by
      split
      · exact himg2
      · exact himg
    have hinpF : hashFree ((truthyStr (j.params.input_filename)).getD "sequences.fasta") := by
      rcases hs : truthyStr (j.params.input_filename) with _ | v
      · decide
      · exact hinp v (truthyStr_some hs)
    have hflags : hashFree (strJoinSep " " (boltzFlags j.params)) :=
      hashFree_strJoinSep (by decide) (hashFree_boltzFlags j.params hout)
    exact hashFree_append
      (hashFree_append
        (hashFree_append (hashFree_append himage (by decide)) hinpF) (by decide))
      hflags

/-- Cleanliness of the whole Boltz script, given cleanliness of the five
hash-bearing template literals and of the directives block, and
hash-freeness of the rest. -/
theorem clean_boltzScript {pat : List Char} (st : Settings) (j : Job) (c : RunnerConfig)
    (hpat : pat ≠ []) (hhead : pat.head? = some '#')
    (h1 : Clean pat ("#!/bin/bash\n").data)
    (h2 : Clean pat ("#SBATCH --job-name=boltz-").data)
    (h3 : Clean pat ("#SBATCH --output=").data)
    (h4 : Clean pat ("#SBATCH --error=").data)
    (h5 : Clean pat ("# Ensure output is readable by the webapp\n").data)
    (hdir : Clean pat (getSlurmDirectives c).data)
    (hid : hashFree j.id)
    (houtdir : hashFree (hostWorkdirStr st j ++ "/output"))
    (hcache : hashFree st.boltz_cache_dir)
    (hdocker : hashFree (strJoinSep " \\\n  " (boltzDockerArgs st j (some c)))) :
    Clean pat (boltzBuildScript st j (some c)).data := by
  unfold boltzBuildScript
  refine clean_strConcat hpat ?_
  intro x hx
  simp only [List.mem_cons, List.not_mem_nil, or_false] at hx
  rcases hx with rfl | rfl | rfl | rfl | rfl | rfl | rfl | rfl | rfl | rfl | rfl |
    rfl | rfl | rfl | rfl | rfl | rfl | rfl | rfl | rfl | rfl | rfl | rfl
  · exact h1
  · exact h2
  · exact clean_of_hashFree hhead hid
  · exact clean_of_hashFree hhead (by decide)
  · exact h3
  · exact clean_of_hashFree hhead houtdir
  · exact clean_of_hashFree hhead (by decide)
  · exact h4
  · exact clean_of_hashFree hhead houtdir
  · exact clean_of_hashFree hhead (by decide)
  · exact hdir
  · exact clean_of_hashFree hhead (by decide)
  · exact clean_of_hashFree hhead (by decide)
  · exact clean_of_hashFree hhead houtdir
  · exact clean_of_hashFree hhead (by decide)
  · exact clean_of_hashFree hhead hcache
  · exact clean_of_hashFree hhead (by decide)
  · exact clean_of_hashFree hhead hdocker
  · exact clean_of_hashFree hhead (by decide)
  · exact h5
  · exact clean_of_hashFree hhead (by decide)
  · exact clean_of_hashFree hhead houtdir
  · exact clean_of_hashFree hhead (by decide)

/-- A RunnerConfig with zero/empty resource fields yields an empty
directives block. -/
theorem slurmDirectives_zero (c : RunnerConfig)
    (hp : c.partition = "") (hg : c.gpus = 0) (hc : c.cpus ≤ 1)
    (hm : c.mem_gb = 0) (ht : c.time_limit = "") :
    getSlurmDirectives c = "" := by
  unfold getSlurmDirectives slurmDirectiveLines
  rw [hp, hg, hm, ht]
  have hcpu : ¬ c.cpus > 1 := by omega
  simp only [ne_eq, not_true_eq_false, if_false, if_neg hcpu, List.append_nil,
    List.nil_append]
  rfl

/-- C7: for every RunnerConfig whose GPU, CPU, memory and time-limit
resource fields are all zero/empty (and whose partition is empty), the
generated batch script contains no resource directive text for partition,
GPU, CPU, memory or time limit; and for every config with GPU count zero
(all other resources arbitrary), no GPU-request directive is ever
emitted.  The hash-freeness hypotheses say the interpolated strings (job
id, paths, image names, extra environment/mount entries, filename and
format parameters) contain no `#` character, which is what makes
`#SBATCH` markers in the script attributable to the template alone. -/
theorem C7_zero_config_resource_directives (st : Settings) (j : Job)
    (hid : hashFree j.id) (hwd : hashFree st.job_base_dir_host)
    (hcache : hashFree st.boltz_cache_dir) (himg : hashFree st.boltz_image)
    (hinp : ∀ s, j.params.input_filename = some s → hashFree s)
    (hout : ∀ s, j.params.output_format = some s → hashFree s) :
    (∀ c : RunnerConfig,
      c.partition = "" → c.gpus = 0 → c.cpus ≤ 1 → c.mem_gb = 0 →
      c.time_limit = "" → hashFree c.image_uri →
      (∀ kv ∈ c.extra_env, hashFree kv.1 ∧ hashFree kv.2) →
      (∀ m ∈ c.extra_mounts, hashFree m.1 ∧ hashFree m.2) →
      ∀ pat ∈ resourceDirectiveMarkers,
        ¬ pat.data <:+: (boltzBuildScript st j (some c)).data) ∧
    (∀ c : RunnerConfig,
      c.gpus = 0 →
      hashFree c.partition → hashFree c.time_limit → hashFree c.image_uri →
      (∀ kv ∈ c.extra_env, hashFree kv.1 ∧ hashFree kv.2) →
      (∀ m ∈ c.extra_mounts, hashFree m.1 ∧ hashFree m.2) →
      ¬ ("#SBATCH --gres").data <:+: (boltzBuildScript st j (some c)).data) := by
  have houtdir : hashFree (hostWorkdirStr st j ++ "/output") := by
    refine hashFree_append ?_ (by decide)
    unfold hostWorkdirStr
    exact hashFree_append (hashFree_append hwd (by decide)) hid
  constructor
  · intro c hcp hcg hcc hcm hct himg2 henv hmnt pat hmem
    have hdocker := hashFree_boltzDocker st j c hid hwd hcache himg himg2 henv hmnt hinp hout
    have hzero : getSlurmDirectives c = "" := slurmDirectives_zero c hcp hcg hcc hcm hct
    have hdirnil : ∀ q : List Char, q ≠ [] → Clean q (getSlurmDirectives c).data := by
      intro q hq
      rw [hzero]
      exact clean_nil hq
    simp only [resourceDirectiveMarkers, List.mem_cons, List.not_mem_nil, or_false] at hmem
    rcases hmem with rfl | rfl | rfl | rfl | rfl <;>
      exact fun hocc =>
        (clean_boltzScript st j c (by decide) (by decide) (by decide) (by decide)
          (by decide) (by decide) (by decide) (hdirnil _ (by decide)) hid houtdir
          hcache hdocker).1 hocc
  · intro c hcg hpart htime himg2 henv hmnt
    have hdocker := hashFree_boltzDocker st j c hid hwd hcache himg himg2 henv hmnt hinp hout
    have hdir : Clean ("#SBATCH --gres").data (getSlurmDirectives c).data := by
      unfold getSlurmDirectives
      refine clean_strJoinSep (by decide) (by decide) ?_
      intro x hx
      unfold slurmDirectiveLines at hx
      rw [hcg] at hx
      simp only [List.mem_append] at hx
      rcases hx with (((hx | hx) | hx) | hx) | hx
      · split at hx
        · rcases List.mem_singleton.mp hx with rfl
          exact clean_append (by decide) (by decide) (clean_of_hashFree (by decide) hpart)
        · simp at hx
      · simp at hx
      · split at hx
        · rcases List.mem_singleton.mp hx with rfl
          exact clean_append (by decide) (by decide)
            (clean_of_hashFree (by decide) (hashFree_natRepr c.cpus))
        · simp at hx
      · split at hx
        · rcases List.mem_singleton.mp hx with rfl
          exact clean_append (by decide)
            (clean_append (by decide) (by decide)
              (clean_of_hashFree (by decide) (hashFree_natRepr c.mem_gb)))
            (clean_of_hashFree (by decide) (by decide))
        · simp at hx
      · split at hx
        · rcases List.mem_singleton.mp hx with rfl
          exact clean_append (by decide) (by decide) (clean_of_hashFree (by decide) htime)
        · simp at hx
    exact fun hocc =>
      (clean_boltzScript st j c (by decide) (by decide) (by decide) (by decide)
        (by decide) (by decide) (by decide) hdir hid houtdir hcache hdocker).1 hocc

/-- A concrete job used to witness the directive claims. -/
def c7JobW : Job := { id := "j-c7", owner := "alice" }

/-- A RunnerConfig with every resource field zero/empty. -/
def c7ZeroCfgW : RunnerConfig :=
  { partition := "", gpus := 0, cpus := 1, mem_gb := 0, time_limit := "" }

/-- A RunnerConfig with zero GPUs but every other resource set. -/
def c7Gpu0CfgW : RunnerConfig :=
  { partition := "gpu", gpus := 0, cpus := 8, mem_gb := 64,
    time_limit := "02:00:00" }

/-- Witness for C7 at concrete inputs: an all-default-zero config emits
no resource directives at all, and a config with GPUs zero but CPUs,
memory, partition and time limit set emits no GPU directive. -/
theorem C7_zero_config_resource_directives_witness :
    (¬ ("#SBATCH --gres").data <:+:
      (boltzBuildScript {} c7JobW (some c7ZeroCfgW)).data) ∧
    (¬ ("#SBATCH --mem=").data <:+:
      (boltzBuildScript {} c7JobW (some c7ZeroCfgW)).data) ∧
    (¬ ("#SBATCH --gres").data <:+:
      (boltzBuildScript {} c7JobW (some c7Gpu0CfgW)).data) := by
  have hmain := C7_zero_config_resource_directives {} c7JobW (by decide) (by decide)
    (by decide) (by decide) (by intro s hs; simp [c7JobW] at hs)
    (by intro s hs; simp [c7JobW] at hs)
  refine ⟨?_, ?_, ?_⟩
  · exact hmain.1 c7ZeroCfgW rfl rfl (by decide) rfl rfl (by decide)
      (by intro kv hkv; simp [c7ZeroCfgW] at hkv)
      (by intro m hm; simp [c7ZeroCfgW] at hm)
      "#SBATCH --gres" (by simp [resourceDirectiveMarkers])
  · exact hmain.1 c7ZeroCfgW rfl rfl (by decide) rfl rfl (by decide)
      (by intro kv hkv; simp [c7ZeroCfgW] at hkv)
      (by intro m hm; simp [c7ZeroCfgW] at hm)
      "#SBATCH --mem=" (by simp [resourceDirectiveMarkers])
  · exact hmain.2 c7Gpu0CfgW rfl (by decide) (by decide) (by decide)
      (by intro kv hkv; simp [c7Gpu0CfgW] at hkv)
      (by intro m hm; simp [c7Gpu0CfgW] at hm)

/- ------------------------------------------------------------------
Claim C8: the retention sweep.
------------------------------------------------------------------ -/

theorem fsRead_removeTree_under {d p : List String} (fs : FS) (h : d <+: p) :
    fsRead (fsRemoveTree fs d) p = none := by
  induction fs with
  | nil => rfl
  | cons e fs ih =>
    unfold fsRemoveTree at ih ⊢
    rw [List.filter_cons]
    by_cases hu : d <+: e.1
    · rw [if_neg (by simpa using hu)]
      exact ih
    · rw [if_pos (by simpa using hu)]
      unfold fsRead
      rw [List.find?_cons_of_neg]
      · exact ih
      · simp only [decide_eq_true_eq]
        intro hep
        exact hu (hep ▸ h)

theorem fsRead_removeTree_not_under {d p : List String} (fs : FS)
    (h : ¬ d <+: p) : fsRead (fsRemoveTree fs d) p = fsRead fs p := by
  induction fs with
  | nil => rfl
  | cons e fs ih =>
    unfold fsRemoveTree at ih ⊢
    rw [List.filter_cons]
    by_cases hu : d <+: e.1
    · rw [if_neg (by simpa using hu)]
      rw [ih]
      unfold fsRead
      rw [List.find?_cons_of_neg]
      simp only [decide_eq_true_eq]
      intro hep
      exact h (hep ▸ hu)
    · rw [if_pos (by simpa using hu)]
      by_cases hep : e.1 = p
      · unfold fsRead
        rw [List.find?_cons_of_pos _ (by simpa using hep),
          List.find?_cons_of_pos _ (by simpa using hep)]
      · unfold fsRead
        rw [List.find?_cons_of_neg _ (by simpa using hep),
          List.find?_cons_of_neg _ (by simpa using hep)]
        exact ih

theorem cleanup_fold_read (env : CleanupEnv) (now : ℚ) :
    ∀ (db : List Job) (fs : FS) (p : List String),
      fsRead
        (db.foldl
          (fun acc j =>
            if cleanupEligible env now j then fsRemoveTree acc (workdirPath env.st j)
            else acc)
          fs) p =
      if db.any (fun j =>
          cleanupEligible env now j && decide (workdirPath env.st j <+: p))
      then none
      else fsRead fs p := by
  intro db
  induction db with
  | nil =>
    intro fs p
    simp
  | cons j db ih =>
    intro fs p
    rw [List.foldl_cons, List.any_cons, ih]
    by_cases he : cleanupEligible env now j
    · by_cases hu : workdirPath env.st j <+: p
      · have hcond : (cleanupEligible env now j &&
            decide (workdirPath env.st j <+: p)) = true := by
          simp [he, hu]
        rw [hcond]
        simp only [Bool.true_or, if_true]
        rw [if_pos he, fsRead_removeTree_under fs hu]
        split <;> rfl
      · have hcond : (cleanupEligible env now j &&
            decide (workdirPath env.st j <+: p)) = false := by
          simp [hu]
        rw [hcond]
        simp only [Bool.false_or]
        rw [if_pos he, fsRead_removeTree_not_under fs hu]
    · have hcond : (cleanupEligible env now j &&
          decide (workdirPath env.st j <+: p)) = false := by
        simp [he]
      rw [hcond]
      simp only [Bool.false_or]
      rw [if_neg he]

/-- C8: a non-dry retention sweep leaves the ledger unchanged, and a file
is removed from disk exactly when it lies under the workdir of some
eligible job — eligible meaning COMPLETED or FAILED, with a recorded
completed_at older than the owner's retention window, a retention of 0
meaning never delete; every other file, in particular any file of a job
inside its window or of a non-terminal job, is untouched. -/
theorem C8_retention_sweep (env : CleanupEnv) (db : List Job) (fs : FS) (now : ℚ) :
    (cleanupJobs env db fs now).1 = db ∧
    (∀ p, fsRead (cleanupJobs env db fs now).2 p =
      if db.any (fun j =>
          cleanupEligible env now j && decide (workdirPath env.st j <+: p))
      then none
      else fsRead fs p) ∧
    (∀ j : Job, cleanupEligible env now j = true ↔
      (j.status = JobStatus.COMPLETED ∨ j.status = JobStatus.FAILED) ∧
      ∃ t, j.completed_at = some t ∧ getRetentionDays env j.owner ≠ 0 ∧
        t < now - (getRetentionDays env j.owner : ℚ) * 86400) := by
  refine ⟨rfl, ?_, ?_⟩
  · intro p
    exact cleanup_fold_read env now db fs p
  · intro j
    unfold cleanupEligible
    rcases hc : j.completed_at with _ | t
    · simp only [hc, Option.isSome_none, Bool.and_false, Bool.false_and]
      constructor
      · intro h
        exact absurd h (by simp)
      · rintro ⟨_, t, ht, _⟩
        exact absurd ht (by simp)
    · simp only [hc, Option.isSome_some, Bool.and_true, Option.getD_some]
      constructor
      · intro h
        simp only [Bool.and_eq_true, decide_eq_true_eq] at h
        obtain ⟨hterm, hrd, hlt⟩ := h
        refine ⟨?_, t, rfl, by simpa using hrd, hlt⟩
        cases hs : j.status <;> rw [hs] at hterm <;>
          simp [JobStatus.isTerminal] at hterm <;> simp
      · rintro ⟨hterm, t2, ht2, hrd, hlt⟩
        obtain rfl : t = t2 := by injection ht2
        have h1 : j.status.isTerminal = true := by
          rcases hterm with hs | hs <;> rw [hs] <;> rfl
        rw [h1, Bool.true_and]
        simp [hrd, hlt]

/-- Concrete cleanup scenario: the environment, three jobs (a 40-day-old
COMPLETED one, a just-finished FAILED one, a RUNNING one), the ledger and
the on-disk files.  The sweep runs at time 3456000 (40 days). -/
def c8EnvW : CleanupEnv := { quotaDB := fun _ => some { retention_days := 30 } }

/-- A COMPLETED job 40 days old at sweep time. -/
def c8OldW : Job :=
  { id := "j-old", owner := "u", status := JobStatus.COMPLETED, completed_at := some 0 }

/-- A FAILED job finished 100 seconds before the sweep. -/
def c8FreshW : Job :=
  { id := "j-fresh", owner := "u", status := JobStatus.FAILED, completed_at := some 3455900 }

/-- A still RUNNING job. -/
def c8LiveW : Job := { id := "j-live", owner := "u", status := JobStatus.RUNNING }

/-- The ledger of the cleanup scenario. -/
def c8DbW : List Job := [c8OldW, c8FreshW, c8LiveW]

/-- The on-disk files of the cleanup scenario. -/
def c8FsW : FS :=
  [ (["job_data", "j-old", "output", "r.txt"], "old-result"),
    (["job_data", "j-fresh", "output", "r.txt"], "fresh-result"),
    (["job_data", "j-live", "input", "sequences.fasta"], "SEQ") ]

/-- Witness for C8: the 40-day-old COMPLETED job with a 30-day retention
has its workdir file deleted, the fresh FAILED job and the RUNNING job
keep theirs, and the ledger list is returned unchanged. -/
theorem C8_retention_sweep_witness :
    (cleanupJobs c8EnvW c8DbW c8FsW 3456000).1 = c8DbW ∧
    fsRead (cleanupJobs c8EnvW c8DbW c8FsW 3456000).2
      ["job_data", "j-old", "output", "r.txt"] = none ∧
    fsRead (cleanupJobs c8EnvW c8DbW c8FsW 3456000).2
      ["job_data", "j-fresh", "output", "r.txt"] = some "fresh-result" ∧
    fsRead (cleanupJobs c8EnvW c8DbW c8FsW 3456000).2
      ["job_data", "j-live", "input", "sequences.fasta"] = some "SEQ" := by
  have h := C8_retention_sweep c8EnvW c8DbW c8FsW 3456000
  have hrd : getRetentionDays c8EnvW "u" = 30 := rfl
  have hOld : cleanupEligible c8EnvW 3456000 c8OldW = true := by
    refine (h.2.2 c8OldW).mpr ⟨Or.inl rfl, 0, rfl, ?_, ?_⟩
    · rw [show c8OldW.owner = "u" from rfl, hrd]
      norm_num
    · rw [show c8OldW.owner = "u" from rfl, hrd]
      norm_num
  have hFresh : cleanupEligible c8EnvW 3456000 c8FreshW = false := by
    rw [Bool.eq_false_iff, Ne, h.2.2 c8FreshW]
    rintro ⟨_, t, ht, _, hlt⟩
    have hca : c8FreshW.completed_at = some 3455900 := rfl
    rw [hca] at ht
    have hteq : t = 3455900 := by
      injection ht with h'
      exact h'.symm
    subst hteq
    rw [show c8FreshW.owner = "u" from rfl, hrd] at hlt
    norm_num at hlt
  have hLive : cleanupEligible c8EnvW 3456000 c8LiveW = false := by
    rw [Bool.eq_false_iff, Ne, h.2.2 c8LiveW]
    rintro ⟨hterm, _⟩
    have hst : c8LiveW.status = JobStatus.RUNNING := rfl
    rcases hterm with hs | hs <;> rw [hst] at hs <;> exact absurd hs (by decide)
  have hwOld : workdirPath c8EnvW.st c8OldW = ["job_data", "j-old"] := rfl
  have hwFresh : workdirPath c8EnvW.st c8FreshW = ["job_data", "j-fresh"] := rfl
  have hwLive : workdirPath c8EnvW.st c8LiveW = ["job_data", "j-live"] := rfl
  refine ⟨h.1, ?_, ?_, ?_⟩
  · rw [h.2.1 _]
    have hcond : (c8DbW.any fun j => cleanupEligible c8EnvW 3456000 j &&
        decide (workdirPath c8EnvW.st j <+:
          (["job_data", "j-old", "output", "r.txt"] : List String))) = true := by
      refine List.any_eq_true.mpr ⟨c8OldW, by simp [c8DbW], ?_⟩
      rw [hOld, Bool.true_and, hwOld]
      decide
    rw [hcond]
    simp
  · rw [h.2.1 _]
    have hcond : (c8DbW.any fun j => cleanupEligible c8EnvW 3456000 j &&
        decide (workdirPath c8EnvW.st j <+:
          (["job_data", "j-fresh", "output", "r.txt"] : List String))) = false := by
      simp only [c8DbW, List.any_cons, List.any_nil, Bool.or_false]
      rw [hFresh, hLive, hwOld, Bool.false_and, Bool.false_and,
        Bool.or_false, Bool.or_false]
      rw [show (decide ((["job_data", "j-old"] : List String) <+:
        (["job_data", "j-fresh", "output", "r.txt"] : List String))) = false from by decide]
      rw [Bool.and_false]
    rw [hcond]
    simp only [Bool.false_eq_true, if_false]
    decide
  · rw [h.2.1 _]
    have hcond : (c8DbW.any fun j => cleanupEligible c8EnvW 3456000 j &&
        decide (workdirPath c8EnvW.st j <+:
          (["job_data", "j-live", "input", "sequences.fasta"] : List String))) = false := by
      simp only [c8DbW, List.any_cons, List.any_nil, Bool.or_false]
      rw [hFresh, hLive, hwOld, Bool.false_and, Bool.false_and,
        Bool.or_false, Bool.or_false]
      rw [show (decide ((["job_data", "j-old"] : List String) <+:
        (["job_data", "j-live", "input", "sequences.fasta"] : List String))) = false from by decide]
      rw [Bool.and_false]
    rw [hcond]
    simp only [Bool.false_eq_true, if_false]
    decide

/- ------------------------------------------------------------------
Claim C10: output downloads cannot escape the output directory.
------------------------------------------------------------------ -/

/-- A path component with no special meaning to resolution. -/
def normalComp (c : String) : Prop := ¬ c = "" ∧ ¬ c = "." ∧ ¬ c = ".."

theorem resolve_foldl_normal (l : List String) :
    ∀ acc, (∀ c ∈ l, normalComp c) →
      l.foldl
        (fun acc c =>
          if c = "" || c = "." then acc
          else if c = ".." then acc.dropLast
          else acc ++ [c]) acc = acc ++ l := by
  induction l with
  | nil =>
    intro acc _
    simp
  | cons c l ih =>
    intro acc hn
    have hc : normalComp c := hn c (by simp)
    rw [List.foldl_cons,
      if_neg (by simp [hc.1, hc.2.1]), if_neg hc.2.2,
      ih (acc ++ [c]) (fun d hd => hn d (List.mem_cons_of_mem c hd))]
    simp

/-- Resolution is the identity on paths of normal components. -/
theorem resolvePath_normal {l : List String} (h : ∀ c ∈ l, normalComp c) :
    resolvePath l = l := by
  unfold resolvePath
  rw [resolve_foldl_normal l [] h]
  simp

/-- Resolution consumes the last component in one step. -/
theorem resolvePath_append_one (l : List String) (c : String) :
    resolvePath (l ++ [c]) =
      (if c = "" || c = "." then resolvePath l
       else if c = ".." then (resolvePath l).dropLast
       else resolvePath l ++ [c]) := by
  unfold resolvePath
  rw [List.foldl_append]
  rfl

/-- The basename taken by the web download endpoint is never a bare dot
and, unless empty, is a real single component (it may still be dot-dot). -/
theorem pyPathName_cases (f : String) :
    pyPathName f = "" ∨ (¬ pyPathName f = "" ∧ ¬ pyPathName f = ".") := by
  unfold pyPathName
  rcases hl : (pyPathParts f).getLast? with _ | x
  · left
    rfl
  · right
    have hx : x ∈ pyPathParts f := List.mem_of_mem_getLast? hl
    unfold pyPathParts at hx
    have hprop := List.of_mem_filter hx
    simp only [Bool.and_eq_true, decide_eq_true_eq] at hprop
    simpa using hprop

/-- C10: the download endpoints cannot read outside the job's output
directory.  Hypotheses: the base directory and the job id are normal path
components, and the workdir and output locations are directories (no
*file* is stored at those exact paths).  Conclusions: (1) whenever the
web endpoint serves content, the served path is
`{workdir}/output/{name}` for a single real component `name` — the
requested filename was reduced to a basename, and a basename of `..`,
`.` or empty never serves a file; (2) whenever the API endpoint serves
content, the served (resolved) path lies under the resolved output
directory; (3) the API endpoint answers invalid-path whenever the
resolved path escapes the output directory.  Symlinks are outside the
model. -/
theorem C10_download_confined (st : Settings) (j : Job) (fs : FS) (filename : String)
    (hbase : normalComp st.job_base_dir) (hid : normalComp j.id)
    (hwdnot : fsRead fs (workdirPath st j) = none)
    (houtnot : fsRead fs (workdirPath st j ++ ["output"]) = none) :
    (∀ p content, webDownloadFile st j fs filename = DownloadResult.served p content →
      ∃ nm, p = workdirPath st j ++ ["output", nm] ∧ normalComp nm ∧ ¬ nm = "..") ∧
    (∀ p content, apiJobDownload st j fs filename = DownloadResult.served p content →
      resolvePath (workdirPath st j ++ ["output"]) <+: p) ∧
    (¬ resolvePath (workdirPath st j ++ ["output"]) <+:
        resolvePath (workdirPath st j ++ ["output"] ++ pySplitSlash filename) →
      apiJobDownload st j fs filename = DownloadResult.invalidPath) := by
  have hnorm3 : ∀ c ∈ [st.job_base_dir, j.id, "output"], normalComp c := by
    intro c hc
    simp only [List.mem_cons, List.not_mem_nil, or_false] at hc
    rcases hc with rfl | rfl | rfl
    · exact hbase
    · exact hid
    · exact ⟨by decide, by decide, by decide⟩
  have hres3 : resolvePath [st.job_base_dir, j.id, "output"] =
      [st.job_base_dir, j.id, "output"] := resolvePath_normal hnorm3
  refine ⟨?_, ?_, ?_⟩
  · intro p content hserve
    unfold webDownloadFile at hserve
    have hsplit : workdirPath st j ++ ["output", pyPathName filename] =
        [st.job_base_dir, j.id, "output"] ++ [pyPathName filename] := by
      unfold workdirPath
      simp
    simp only [hsplit, resolvePath_append_one, hres3] at hserve
    rcases pyPathName_cases filename with hnm | hnm
    · rw [hnm] at hserve
      rw [if_pos (by simp)] at hserve
      have : [st.job_base_dir, j.id, "output"] = workdirPath st j ++ ["output"] := by
        unfold workdirPath
        simp
      rw [this, houtnot] at hserve
      exact absurd hserve (by simp)
    · by_cases hdd : pyPathName filename = ".."
      · rw [if_neg (by simp [hnm.1, hnm.2]), if_pos hdd] at hserve
        have : ([st.job_base_dir, j.id, "output"] : List String).dropLast =
            workdirPath st j := by
          unfold workdirPath
          rfl
        rw [this, hwdnot] at hserve
        exact absurd hserve (by simp)
      · rw [if_neg (by simp [hnm.1, hnm.2]), if_neg hdd] at hserve
        rcases hread : fsRead fs
            ([st.job_base_dir, j.id, "output"] ++ [pyPathName filename]) with _ | c
        · rw [hread] at hserve
          exact absurd hserve (by simp)
        · rw [hread] at hserve
          simp only [DownloadResult.served.injEq] at hserve
          refine ⟨pyPathName filename, ?_, ⟨hnm.1, hnm.2, hdd⟩, hdd⟩
          rw [← hserve.1]
          unfold workdirPath
          simp
  · intro p content hserve
    unfold apiJobDownload at hserve
    by_cases hcond : resolvePath (workdirPath st j ++ ["output"]) <+:
        resolvePath (workdirPath st j ++ ["output"] ++ pySplitSlash filename)
    · rw [if_neg (not_not_intro hcond)] at hserve
      rcases hread : fsRead fs
          (resolvePath (workdirPath st j ++ ["output"] ++ pySplitSlash filename)) with _ | c
      · rw [hread] at hserve
        exact absurd hserve (by simp)
      · rw [hread] at hserve
        simp only [DownloadResult.served.injEq] at hserve
        rw [← hserve.1]
        exact hcond
    · rw [if_pos hcond] at hserve
      exact absurd hserve (by simp)
  · intro hncond
    unfold apiJobDownload
    rw [if_pos hncond]

/-- A concrete job used to witness download confinement. -/
def c10JobW : Job := { id := "j-c10", owner := "alice" }

/-- A concrete filesystem with a job output file and a file outside the
job tree. -/
def c10FsW : FS :=
  [ (["job_data", "j-c10", "output", "model.pdb"], "ATOM"),
    (["job_data", "secret.txt"], "top-secret") ]

/-- Witness for C10: a legitimate filename can only be served out of the
output directory, and a traversal attempt through the API endpoint is
rejected as an invalid path. -/
theorem C10_download_confined_witness :
    (∀ p content,
      webDownloadFile {} c10JobW c10FsW "model.pdb" = DownloadResult.served p content →
      ∃ nm, p = workdirPath {} c10JobW ++ ["output", nm] ∧ normalComp nm ∧ ¬ nm = "..") ∧
    (¬ resolvePath (workdirPath {} c10JobW ++ ["output"]) <+:
        resolvePath (workdirPath {} c10JobW ++ ["output"] ++
          pySplitSlash "../../secret.txt") →
      apiJobDownload {} c10JobW c10FsW "../../secret.txt" = DownloadResult.invalidPath) ∧
    apiJobDownload {} c10JobW c10FsW "../../secret.txt" = DownloadResult.invalidPath := by
  have h1 := C10_download_confined {} c10JobW c10FsW "model.pdb"
    ⟨by decide, by decide, by decide⟩ ⟨by decide, by decide, by decide⟩ rfl rfl
  have h2 := C10_download_confined {} c10JobW c10FsW "../../secret.txt"
    ⟨by decide, by decide, by decide⟩ ⟨by decide, by decide, by decide⟩ rfl rfl
  refine ⟨h1.1, h2.2.2, ?_⟩
  exact h2.2.2 (by decide)

/- ------------------------------------------------------------------
Claim C1: end-to-end Boltz-2 submission in simulated scheduler mode.
------------------------------------------------------------------ -/

/-- C1: a boltz2 submission with non-empty sequence text, maintenance
mode off, the runner enabled, and an unused quota (no running, pending or
same-day jobs, a non-disabled account and positive limits) succeeds:
create_and_submit_job returns a Job in status PENDING with a non-empty
scheduler job id, and the job workdir holds the `input/sequences.fasta`
artifact whose content is exactly the submitted (normalized) sequence
text.  Stated in the deterministic simulated-scheduler mode. -/
theorem C1_end_to_end_submit (env : SubmissionEnv) (fs : FS)
    (owner name modelKey freshId : String) (cleaned : Boltz2Cleaned) (now : ℚ)
    (hfake : env.st.fake_slurm = true)
    (hm : env.maintenance_mode = false)
    (hr : isRunnerEnabled env "boltz-2" = true)
    (hdis : (effectiveQuota env).is_disabled = false)
    (hl1 : 0 < (effectiveQuota env).max_concurrent_jobs)
    (hl2 : 0 < (effectiveQuota env).max_queued_jobs)
    (hl3 : 0 < (effectiveQuota env).jobs_per_day)
    (hc1 : env.running_count = 0) (hc2 : env.pending_count = 0)
    (hc3 : env.jobs_today = 0)
    (hseq : ¬ pyStrip cleaned.sequences = "")
    (hlen : ((boltz2NormalizeInputs cleaned).sequences).length ≤ maxSequenceChars) :
    ∃ job fs2,
      createAndSubmitJob env fs owner name "boltz-2"
          (boltz2NormalizeInputs cleaned).sequences
          (boltz2NormalizeInputs cleaned).params modelKey
          (some (boltz2NormalizeInputs cleaned)) freshId now none =
        SubmitResult.ok job fs2 ∧
      job.status = JobStatus.PENDING ∧
      job.id = freshId ∧
      ¬ job.slurm_job_id = "" ∧
      fsRead fs2 (workdirPath env.st job ++ ["input", "sequences.fasta"]) =
        some (boltz2NormalizeInputs cleaned).sequences := by
  have hq : (checkQuota env).1 = none := by
    unfold checkQuota
    by_cases hs : env.isStaff = true
    · rw [if_pos hs]
    · rw [if_neg hs]
      have hd' : (getUserQuota env.st env.quotaRecord).1.is_disabled = false := hdis
      have hl1' : 0 < (getUserQuota env.st env.quotaRecord).1.max_concurrent_jobs := hl1
      have hl2' : 0 < (getUserQuota env.st env.quotaRecord).1.max_queued_jobs := hl2
      have hl3' : 0 < (getUserQuota env.st env.quotaRecord).1.jobs_per_day := hl3
      rw [if_neg (by simp [hd']), if_neg (by rw [hc1]; omega),
        if_neg (by rw [hc2]; omega), if_neg (by rw [hc3]; omega)]
  have hmm : checkMaintenanceMode env = none := by
    unfold checkMaintenanceMode
    rw [hm]
    simp
  have hre : checkRunnerEnabled env "boltz-2" = none := by
    unfold checkRunnerEnabled
    rw [if_neg (by simp [hr])]
  have hadm : admissionCheck env "boltz-2" = none := by
    simp only [admissionCheck, hmm, hre, hq]
  have hpseq : (boltz2NormalizeInputs cleaned).sequences = pyStrip cleaned.sequences := rfl
  have hseq2 : pyStrip ((boltz2NormalizeInputs cleaned).sequences) =
      (boltz2NormalizeInputs cleaned).sequences := by
    rw [hpseq]
    exact pyStrip_idem cleaned.sequences
  have hne : ¬ (boltz2NormalizeInputs cleaned).sequences = "" := by
    rw [hpseq]
    exact hseq
  have hfiles : (boltz2NormalizeInputs cleaned).files = [] := rfl
  unfold createAndSubmitJob
  simp only [hadm, hseq2, Option.getD_some]
  rw [if_neg (fun hcon => hne hcon.1), if_neg (by simpa using not_lt.mpr hlen)]
  unfold slurmSubmit
  rw [hfake]
  simp only [if_true]
  refine ⟨_, _, rfl, rfl, rfl, fakeId_ne_empty freshId, ?_⟩
  unfold prepareWorkdir
  rw [hfiles]
  simp only [List.foldl_nil]
  rw [if_pos (by simpa using hne)]
  rw [fsRead_write_ne _ _ (by
    unfold workdirPath
    simp)]
  unfold workdirPath
  exact fsRead_write_self fs _ _

/-- Witness for C1: a concrete first-time user submits a FASTA text in
simulated scheduler mode and gets a PENDING job with a scheduler id and
the on-disk sequences artifact. -/
theorem C1_end_to_end_submit_witness :
    ∃ job fs2,
      createAndSubmitJob { st := { fake_slurm := true } } [] "alice" "my job" "boltz-2"
          (boltz2NormalizeInputs { sequences := ">s\nMKTAYI" }).sequences
          (boltz2NormalizeInputs { sequences := ">s\nMKTAYI" }).params "boltz2"
          (some (boltz2NormalizeInputs { sequences := ">s\nMKTAYI" })) "j-c1" 0 none =
        SubmitResult.ok job fs2 ∧
      job.status = JobStatus.PENDING ∧
      job.id = "j-c1" ∧
      ¬ job.slurm_job_id = "" ∧
      fsRead fs2 (workdirPath ({ st := { fake_slurm := true } } : SubmissionEnv).st job ++
          ["input", "sequences.fasta"]) =
        some (boltz2NormalizeInputs { sequences := ">s\nMKTAYI" }).sequences :=
  C1_end_to_end_submit { st := { fake_slurm := true } } [] "alice" "my job" "boltz2"
    "j-c1" { sequences := ">s\nMKTAYI" } 0 rfl rfl rfl rfl (by decide) (by decide)
    (by decide) rfl rfl rfl (by decide) (by decide)

end FoldWebapp
